import Mathlib

set_option maxRecDepth 100000

/-!
Verification of the neuroanatomical index engine of this repository: the DKT
stats report parser, the male reference tables, the z-score and composite
z-score primitives, the normal-CDF percentile converter, and the index
calculators (cognitive composites and lateralization indices).

JavaScript numbers are modelled by JSNum: either NaN, a signed infinity, or a
finite value represented exactly as a rational. Arithmetic mirrors IEEE-754
special-value propagation (NaN absorbs, infinities combine by sign, division
by zero yields an infinity or NaN) while finite arithmetic is exact. The
percentile converter, which evaluates the exponential function, is embedded
over the real numbers.
-/

namespace Lifeline


/-- A JavaScript number: NaN, a signed infinity, or a finite (exact rational) value. -/
inductive JSNum where
  | nan : JSNum
  | inf (pos : Bool) : JSNum
  | fin (q : ℚ) : JSNum
deriving DecidableEq, Repr

namespace JSNum

/-- IEEE addition on JS numbers: NaN absorbs, opposite infinities give NaN. -/
def add : JSNum → JSNum → JSNum
  | nan, _ => nan
  | _, nan => nan
  | inf p, inf q => if p = q then inf p else nan
  | inf p, fin _ => inf p
  | fin _, inf p => inf p
  | fin a, fin b => fin (a + b)

/-- IEEE negation. -/
def neg : JSNum → JSNum
  | nan => nan
  | inf p => inf (!p)
  | fin a => fin (-a)

/-- IEEE subtraction, defined as addition of the negation. -/
def sub (a b : JSNum) : JSNum := add a (neg b)

/-- IEEE multiplication: NaN absorbs, infinity times zero is NaN. -/
def mul : JSNum → JSNum → JSNum
  | nan, _ => nan
  | _, nan => nan
  | inf p, inf q => inf (p = q)
  | inf p, fin a => if a = 0 then nan else inf (p = decide (0 < a))
  | fin a, inf p => if a = 0 then nan else inf (p = decide (0 < a))
  | fin a, fin b => fin (a * b)

/-- IEEE division: 0/0 and inf/inf are NaN, finite/0 is a signed infinity
(only +0 is modelled), finite/inf is 0. -/
def div : JSNum → JSNum → JSNum
  | nan, _ => nan
  | _, nan => nan
  | inf _, inf _ => nan
  | inf p, fin a =>
      if a = 0 then inf p
      else inf (p = decide (0 < a))
  | fin _, inf _ => fin 0
  | fin a, fin b =>
      if b = 0 then (if a = 0 then nan else inf (0 < a))
      else fin (a / b)

/-- JS Math.abs. -/
def jabs : JSNum → JSNum
  | nan => nan
  | inf _ => inf true
  | fin a => fin |a|

/-- JS strict less-than: any comparison with NaN is false. -/
def blt : JSNum → JSNum → Bool
  | nan, _ => false
  | _, nan => false
  | inf p, inf q => !p && q
  | inf p, fin _ => !p
  | fin _, inf q => q
  | fin a, fin b => a < b

/-- JS less-or-equal: any comparison with NaN is false. -/
def ble : JSNum → JSNum → Bool
  | nan, _ => false
  | _, nan => false
  | inf p, inf q => p = q || (!p && q)
  | inf p, fin _ => !p
  | fin _, inf q => q
  | fin a, fin b => a ≤ b

instance : Add JSNum := ⟨add⟩
instance : Neg JSNum := ⟨neg⟩
instance : Sub JSNum := ⟨sub⟩
instance : Mul JSNum := ⟨mul⟩
instance : Div JSNum := ⟨div⟩
instance : OfNat JSNum n := ⟨fin n⟩
instance : OfScientific JSNum := ⟨fun m b e => fin (OfScientific.ofScientific m b e)⟩

/-- JS Math.min: NaN poisons, otherwise the smaller argument. -/
def jmin (a b : JSNum) : JSNum :=
  match a, b with
  | nan, _ => nan
  | _, nan => nan
  | x, y => if blt x y then x else y

/-- JS Math.max: NaN poisons, otherwise the larger argument. -/
def jmax (a b : JSNum) : JSNum :=
  match a, b with
  | nan, _ => nan
  | _, nan => nan
  | x, y => if blt x y then y else x

/-- JS Math.round: round half toward positive infinity (floor of x + 1/2). -/
def jround : JSNum → JSNum
  | nan => nan
  | inf p => inf p
  | fin a => fin (round a : ℤ)

/-- Math.round(x * 100) / 100, the 2-decimal display rounding used by the
composite indices. -/
def round2 (x : JSNum) : JSNum := jround (x * fin 100) / fin 100

/-- Math.round(x * 1000) / 1000 and Number(x.toFixed(3)): 3-decimal display
rounding (ECMAScript toFixed also resolves ties toward the larger value). -/
def round3 (x : JSNum) : JSNum := jround (x * fin 1000) / fin 1000

/-- A JS number is finite when it is neither NaN nor an infinity. -/
def isFin : JSNum → Bool
  | fin _ => true
  | _ => false

end JSNum

/-- Split a character list at newline characters (JS content.split of a newline). -/
def splitOnNl : List Char → List (List Char)
  | [] => [[]]
  | '\n' :: rest => [] :: splitOnNl rest
  | c :: rest =>
      match splitOnNl rest with
      | [] => [[c]]
      | l :: ls => (c :: l) :: ls

/-- Remove leading and trailing whitespace (JS String.prototype.trim). -/
def trimChars (cs : List Char) : List Char :=
  ((cs.dropWhile Char.isWhitespace).reverse.dropWhile Char.isWhitespace).reverse

/-- One step of whitespace tokenization, consumed by a right fold. -/
def tokStep (c : Char) (acc : List (List Char)) : List (List Char) :=
  if c.isWhitespace then [] :: acc
  else
    match acc with
    | [] => [[c]]
    | t :: ts => (c :: t) :: ts

/-- Split a line into maximal runs of non-whitespace characters
(JS split on one-or-more whitespace). -/
def tokensOf (cs : List Char) : List (List Char) :=
  (cs.foldr tokStep []).filter (fun t => !t.isEmpty)

/-- Substring test on character lists (JS String.prototype.includes). -/
def hasSub : List Char → List Char → Bool
  | needle, [] => needle.isEmpty
  | needle, c :: rest => needle.isPrefixOf (c :: rest) || hasSub needle rest

/-- Whether a raw line starts with the comment character. -/
def startsHash : List Char → Bool
  | '#' :: _ => true
  | _ => false

/-- Numeric value of a run of decimal digit characters. -/
def digitsVal (cs : List Char) : ℕ :=
  cs.foldl (fun n c => 10 * n + (c.toNat - '0'.toNat)) 0

/-- Exponent suffix of a JS float literal: optional sign then digits; an
exponent with no digits is ignored (contributes 0). -/
def expoOf (cs : List Char) : ℤ :=
  let sg : ℤ × List Char :=
    match cs with
    | '-' :: r => (-1, r)
    | '+' :: r => (1, r)
    | _ => (1, cs)
  let ds := sg.2.takeWhile Char.isDigit
  if ds.isEmpty then 0 else sg.1 * (digitsVal ds : ℤ)

/-- JS parseFloat: skip leading whitespace, optional sign, then either an
Infinity literal or decimal digits with optional fraction and exponent;
anything unparseable yields NaN, trailing garbage is ignored. -/
def parseFloatChars (cs : List Char) : JSNum :=
  let cs1 := cs.dropWhile Char.isWhitespace
  let sg : ℚ × List Char :=
    match cs1 with
    | '-' :: r => (-1, r)
    | '+' :: r => (1, r)
    | _ => (1, cs1)
  if ("Infinity".toList).isPrefixOf sg.2 then JSNum.inf (0 < sg.1)
  else
    let intPart := sg.2.takeWhile Char.isDigit
    let cs2 := sg.2.dropWhile Char.isDigit
    let fr : List Char × List Char :=
      match cs2 with
      | '.' :: r => (r.takeWhile Char.isDigit, r.dropWhile Char.isDigit)
      | _ => ([], cs2)
    if intPart.isEmpty && fr.1.isEmpty then JSNum.nan
    else
      let mant : ℚ := (digitsVal intPart : ℚ) + (digitsVal fr.1 : ℚ) / (10 ^ fr.1.length : ℚ)
      let expo : ℤ :=
        match fr.2 with
        | 'e' :: r => expoOf r
        | 'E' :: r => expoOf r
        | _ => 0
      JSNum.fin (sg.1 * mant * (10 : ℚ) ^ expo)

/-- Per-region morphometric measurements: thickness, surface area and volume
are always present; the four curvature metrics exist only for rows parsed in
the 10-column BA format. -/
structure DKTRegionData where
  thickness : JSNum
  surfArea : JSNum
  volume : JSNum
  meanCurv : Option JSNum
  gausCurv : Option JSNum
  foldInd : Option JSNum
  curvInd : Option JSNum
deriving DecidableEq, Repr

/-- Insert a key into a JS-object-like association list: an existing key is
overwritten in place, a new key is appended. -/
def recInsert (k : String) (v : DKTRegionData) : List (String × DKTRegionData) → List (String × DKTRegionData)
  | [] => [(k, v)]
  | (k1, v1) :: rest => if k1 = k then (k, v) :: rest else (k1, v1) :: recInsert k v rest

/-- Parser state: whether the column-header marker has been seen, whether the
10-column curvature format is active, and the rows parsed so far. -/
structure ParseSt where
  inTable : Bool
  hasExtendedCols : Bool
  data : List (String × DKTRegionData)
deriving DecidableEq, Repr

def colHeadersTok : List Char := "ColHeaders".toList

def meanCurvTok : List Char := "MeanCurv".toList

def curvIndTok : List Char := "CurvInd".toList

/-- Process one line of a DKT stats report, mirroring the loop body of
parseDKTStats: a ColHeaders marker line switches the parser into table mode
and records the column shape; afterwards every non-empty non-comment line
with at least 5 tokens becomes one region entry, with curvature fields when
the 10-column format is active and at least 10 tokens are present. -/
def parseLine (st : ParseSt) (line : List Char) : ParseSt :=
  if hasSub colHeadersTok line then
    { st with inTable := true,
              hasExtendedCols := hasSub meanCurvTok line || hasSub curvIndTok line }
  else if st.inTable && !(trimChars line).isEmpty && !(startsHash line) then
    let parts := tokensOf (trimChars line)
    if 5 ≤ parts.length then
      let regionName := String.mk (parts.getD 0 [])
      let base : DKTRegionData :=
        { thickness := parseFloatChars (parts.getD 4 [])
          surfArea := parseFloatChars (parts.getD 2 [])
          volume := parseFloatChars (parts.getD 3 [])
          meanCurv := none, gausCurv := none, foldInd := none, curvInd := none }
      let regionData :=
        if st.hasExtendedCols && 10 ≤ parts.length then
          { base with meanCurv := some (parseFloatChars (parts.getD 6 []))
                      gausCurv := some (parseFloatChars (parts.getD 7 []))
                      foldInd := some (parseFloatChars (parts.getD 8 []))
                      curvInd := some (parseFloatChars (parts.getD 9 [])) }
        else base
      { st with data := recInsert regionName regionData st.data }
    else st
  else st

def initSt : ParseSt := ⟨false, false, []⟩

/-- Parse a whole DKT stats report into a region-name keyed mapping. -/
def parseDKTStats (content : String) : List (String × DKTRegionData) :=
  ((splitOnNl content.toList).foldl parseLine initSt).data

/-- A population mean and standard deviation for one metric. -/
structure MeanStd where
  mean : ℚ
  std : ℚ
deriving DecidableEq, Repr

/-- Reference entry for one region: thickness, surface area and volume norms. -/
structure RefEntry where
  thickness : MeanStd
  surfArea : MeanStd
  volume : MeanStd
deriving DecidableEq, Repr

/-- Reference data for adult males, keyed by region name. -/
def REFERENCE_DATA_MALE : List (String × RefEntry) := [
  ("precentral", ⟨⟨2.65, 0.18⟩, ⟨5400, 650⟩, ⟨16500, 2200⟩⟩),
  ("postcentral", ⟨⟨2.15, 0.16⟩, ⟨5200, 600⟩, ⟨13500, 1800⟩⟩),
  ("paracentral", ⟨⟨2.45, 0.17⟩, ⟨1700, 280⟩, ⟨4800, 700⟩⟩),
  ("pericalcarine", ⟨⟨1.55, 0.14⟩, ⟨1900, 320⟩, ⟨2400, 400⟩⟩),
  ("cuneus", ⟨⟨1.95, 0.15⟩, ⟨2300, 380⟩, ⟨4600, 650⟩⟩),
  ("lingual", ⟨⟨2.05, 0.15⟩, ⟨3800, 500⟩, ⟨8200, 1100⟩⟩),
  ("entorhinal", ⟨⟨3.20, 0.35⟩, ⟨480, 100⟩, ⟨1600, 350⟩⟩),
  ("parahippocampal", ⟨⟨2.75, 0.22⟩, ⟨700, 120⟩, ⟨2200, 380⟩⟩),
  ("medialorbitofrontal", ⟨⟨2.45, 0.20⟩, ⟨1800, 300⟩, ⟨5000, 750⟩⟩),
  ("superiortemporal", ⟨⟨2.85, 0.20⟩, ⟨5800, 700⟩, ⟨19000, 2500⟩⟩),
  ("parsopercularis", ⟨⟨2.55, 0.16⟩, ⟨1600, 250⟩, ⟨4500, 650⟩⟩),
  ("parstriangularis", ⟨⟨2.40, 0.17⟩, ⟨1550, 280⟩, ⟨4000, 600⟩⟩),
  ("middletemporal", ⟨⟨2.85, 0.19⟩, ⟨5000, 650⟩, ⟨16000, 2200⟩⟩),
  ("fusiform", ⟨⟨2.70, 0.18⟩, ⟨3300, 450⟩, ⟨9500, 1300⟩⟩),
  ("supramarginal", ⟨⟨2.60, 0.17⟩, ⟨3800, 500⟩, ⟨11500, 1600⟩⟩),
  ("inferiorparietal", ⟨⟨2.50, 0.16⟩, ⟨5500, 700⟩, ⟨15500, 2100⟩⟩),
  ("rostralanteriorcingulate", ⟨⟨2.85, 0.22⟩, ⟨1100, 200⟩, ⟨3500, 550⟩⟩),
  ("insula", ⟨⟨3.05, 0.22⟩, ⟨2500, 350⟩, ⟨7800, 1000⟩⟩),
  ("posteriorcingulate", ⟨⟨2.45, 0.20⟩, ⟨1500, 250⟩, ⟨4000, 600⟩⟩),
  ("superiorfrontal", ⟨⟨2.75, 0.18⟩, ⟨9500, 1200⟩, ⟨30000, 4000⟩⟩),
  ("rostralmiddlefrontal", ⟨⟨2.40, 0.17⟩, ⟨4700, 600⟩, ⟨13000, 1800⟩⟩),
  ("caudalmiddlefrontal", ⟨⟨2.65, 0.17⟩, ⟨2600, 400⟩, ⟨7500, 1000⟩⟩),
  ("superiorparietal", ⟨⟨2.25, 0.15⟩, ⟨5200, 650⟩, ⟨13000, 1700⟩⟩),
  ("precuneus", ⟨⟨2.40, 0.16⟩, ⟨4600, 580⟩, ⟨12000, 1600⟩⟩),
  ("lateraloccipital", ⟨⟨2.20, 0.16⟩, ⟨6300, 800⟩, ⟨15000, 2000⟩⟩),
  ("lateralorbitofrontal", ⟨⟨2.55, 0.20⟩, ⟨3500, 480⟩, ⟨9800, 1400⟩⟩),
  ("inferiortemporal", ⟨⟨2.80, 0.20⟩, ⟨3900, 520⟩, ⟨12500, 1700⟩⟩),
  ("BA3b_exvivo", ⟨⟨2.15, 0.18⟩, ⟨2000, 350⟩, ⟨4500, 700⟩⟩),
  ("BA4a_exvivo", ⟨⟨2.85, 0.20⟩, ⟨1300, 250⟩, ⟨4300, 650⟩⟩),
  ("BA4p_exvivo", ⟨⟨2.80, 0.19⟩, ⟨1000, 200⟩, ⟨2700, 450⟩⟩),
  ("BA44_exvivo", ⟨⟨2.80, 0.18⟩, ⟨1650, 300⟩, ⟨5200, 750⟩⟩),
  ("BA45_exvivo", ⟨⟨2.50, 0.18⟩, ⟨2250, 400⟩, ⟨6200, 900⟩⟩)]

/-- Curvature reference entry for a BA subregion: mean-curvature and
folding-index norms. -/
structure CurvRefEntry where
  meanCurv : MeanStd
  foldInd : MeanStd
deriving DecidableEq, Repr

/-- Curvature reference data for BA subregions. -/
def BA_CURVATURE_REFERENCE : List (String × CurvRefEntry) := [
  ("BA3b_exvivo", ⟨⟨0.118, 0.015⟩, ⟨30, 8⟩⟩),
  ("BA4a_exvivo", ⟨⟨0.091, 0.012⟩, ⟨23, 6⟩⟩),
  ("BA4p_exvivo", ⟨⟨0.098, 0.013⟩, ⟨8, 3⟩⟩),
  ("BA44_exvivo", ⟨⟨0.113, 0.014⟩, ⟨26, 7⟩⟩),
  ("BA45_exvivo", ⟨⟨0.132, 0.018⟩, ⟨42, 10⟩⟩)]

/-- zScore(value, mean, std) = (value - mean) / std on JS numbers: a zero
std yields an infinity or NaN, never an exception. -/
def zScore (value mean std : JSNum) : JSNum := (value - mean) / std

/-- Weighted tri-metric composite z-score; each weight percentage is divided
by 100 before use. -/
def compositeZScore (data : DKTRegionData) (ref : RefEntry) (w : ℚ × ℚ × ℚ) : JSNum :=
  let zThick := zScore data.thickness (JSNum.fin ref.thickness.mean) (JSNum.fin ref.thickness.std)
  let zSurf := zScore data.surfArea (JSNum.fin ref.surfArea.mean) (JSNum.fin ref.surfArea.std)
  let zVol := zScore data.volume (JSNum.fin ref.volume.mean) (JSNum.fin ref.volume.std)
  zThick * JSNum.fin (w.1 / 100) + zSurf * JSNum.fin (w.2.1 / 100) + zVol * JSNum.fin (w.2.2 / 100)

/-- Abramowitz-Stegun coefficient a1 of the normal-CDF approximation. -/
def aC1 : ℝ := 0.254829592

/-- Abramowitz-Stegun coefficient a2. -/
def aC2 : ℝ := -0.284496736

/-- Abramowitz-Stegun coefficient a3. -/
def aC3 : ℝ := 1.421413741

/-- Abramowitz-Stegun coefficient a4. -/
def aC4 : ℝ := -1.453152027

/-- Abramowitz-Stegun coefficient a5. -/
def aC5 : ℝ := 1.061405429

/-- Abramowitz-Stegun parameter p. -/
def pC : ℝ := 0.3275911

/-- Convert a z-score to an integer percentile with the Abramowitz-Stegun
rational approximation of the normal CDF, exactly as in the source:
t = 1/(1+p|z|), y = 1 - poly(t)*exp(-z^2/2), result = round(100*(0.5*(1+sign*y))).
Math.round rounds half toward positive infinity, which is Mathlib round. -/
noncomputable def zToPercentileR (z : ℝ) : ℤ :=
  let sign : ℝ := if z < 0 then -1 else 1
  let absZ := |z|
  let t := 1 / (1 + pC * absZ)
  let y := 1 - (((((aC5 * t + aC4) * t) + aC3) * t + aC2) * t + aC1) * t * Real.exp (-absZ * absZ / 2)
  round ((0.5 * (1 + sign * y)) * 100)

/-- zToPercentile lifted to JS numbers. On a finite argument it is the real
computation; NaN propagates (Math.round of NaN); at the infinities the
source expression evaluates to 100 and 0 respectively (t becomes 0, the
exponential factor vanishes, y becomes 1). -/
noncomputable def zToPercentile : JSNum → JSNum
  | JSNum.nan => JSNum.nan
  | JSNum.inf true => JSNum.fin 100
  | JSNum.inf false => JSNum.fin 0
  | JSNum.fin q => JSNum.fin ((zToPercentileR (q : ℝ) : ℤ) : ℚ)

/-- JS greater-or-equal, false on NaN. -/
def JSNum.bge (a b : JSNum) : Bool := JSNum.ble b a

/-- The full dataset handed to the calculators: left and right standard-region
mappings and optional left and right BA-subregion mappings. -/
structure DKTData where
  lh : List (String × DKTRegionData)
  rh : List (String × DKTRegionData)
  lhBA : Option (List (String × DKTRegionData))
  rhBA : Option (List (String × DKTRegionData))
deriving DecidableEq, Repr

/-- One region's contribution record inside an index result. -/
structure RegionDetail where
  region : String
  regionWeight : ℚ
  zL : JSNum
  zR : JSNum
  contribL : JSNum
  contribR : JSNum
  weightsUsed : String
deriving DecidableEq, Repr

/-- The numeric core of an IndexResult. The presentational constant string
fields of the source record (name, interpretation, threshold, formula,
references, regions, weights) carry no computational content and are not
modelled. zScoreF is the optional raw z-score field. -/
structure IndexResult where
  value : JSNum
  percentile : JSNum
  zScoreF : Option JSNum
  details : List RegionDetail

/-- Integer percentage rendering used in weightsUsed strings ((w*100).toFixed(0)). -/
def pctStr (w : ℚ) : String := toString (round (w * 100) : ℤ)

/-- Accumulator of the single-loop composite calculators. -/
structure SymAcc where
  totalIndex : JSNum
  details : List RegionDetail
deriving DecidableEq, Repr

/-- Accumulator of the calculators that also track a total contributing
weight (the weight increments are always finite config constants, so the
weight is carried as an exact rational). -/
structure WAcc where
  totalIndex : JSNum
  totalWeight : ℚ
  details : List RegionDetail
deriving DecidableEq, Repr

/-- Olfactory Function Index region weights. -/
def olfRegionWeights : List (String × ℚ) :=
  [("entorhinal", 0.60), ("parahippocampal", 0.20), ("medialorbitofrontal", 0.20)]

/-- Loop body of the Olfactory Function Index: a region is skipped when its
reference entry or either hemisphere measurement is missing. -/
def olfStep (d : DKTData) (acc : SymAcc) (rw : String × ℚ) : SymAcc :=
  match List.lookup rw.1 REFERENCE_DATA_MALE, List.lookup rw.1 d.lh, List.lookup rw.1 d.rh with
  | some ref, some lhD, some rhD =>
      let zL := compositeZScore lhD ref (80, 10, 10)
      let zR := compositeZScore rhD ref (80, 10, 10)
      { totalIndex := acc.totalIndex + JSNum.fin rw.2 * ((zL + zR) / 2),
        details := acc.details ++ [{
          region := rw.1, regionWeight := rw.2,
          zL := JSNum.round3 zL, zR := JSNum.round3 zR,
          contribL := JSNum.round3 (JSNum.fin rw.2 * zL),
          contribR := JSNum.round3 (JSNum.fin rw.2 * zR),
          weightsUsed := "80:10:10" }] }
  | _, _, _ => acc

def olfAcc (d : DKTData) : SymAcc := olfRegionWeights.foldl (olfStep d) ⟨0, []⟩

/-- Olfactory Function Index. -/
noncomputable def calculateOlfactoryIndex (d : DKTData) : IndexResult :=
  { value := JSNum.round2 (olfAcc d).totalIndex,
    percentile := zToPercentile (olfAcc d).totalIndex,
    zScoreF := none,
    details := (olfAcc d).details }

/-- Language Composite Index DKT region weights. -/
def langDktRegionWeights : List (String × ℚ) :=
  [("superiortemporal", 0.25), ("parsopercularis", 0.15), ("parstriangularis", 0.10),
   ("middletemporal", 0.10), ("fusiform", 0.10)]

/-- Language Composite Index BA region weights. -/
def langBaRegionWeights : List (String × ℚ) :=
  [("BA44_exvivo", 0.15), ("BA45_exvivo", 0.15)]

/-- Loop body of the Language Composite Index over DKT regions
(0.7 left / 0.3 right blend). -/
def langDktStep (d : DKTData) (acc : WAcc) (rw : String × ℚ) : WAcc :=
  match List.lookup rw.1 REFERENCE_DATA_MALE, List.lookup rw.1 d.lh, List.lookup rw.1 d.rh with
  | some ref, some lhD, some rhD =>
      let zL := compositeZScore lhD ref (45, 30, 25)
      let zR := compositeZScore rhD ref (45, 30, 25)
      { totalIndex := acc.totalIndex + JSNum.fin rw.2 * (0.7 * zL + 0.3 * zR),
        totalWeight := acc.totalWeight + rw.2,
        details := acc.details ++ [{
          region := rw.1, regionWeight := rw.2,
          zL := JSNum.round3 zL, zR := JSNum.round3 zR,
          contribL := JSNum.round3 (JSNum.fin rw.2 * 0.7 * zL),
          contribR := JSNum.round3 (JSNum.fin rw.2 * 0.3 * zR),
          weightsUsed := "45:30:25" }] }
  | _, _, _ => acc

/-- Loop body of the Language Composite Index over BA regions
(0.8 left / 0.2 right blend). -/
def langBaStep (lb rb : List (String × DKTRegionData)) (acc : WAcc) (rw : String × ℚ) : WAcc :=
  match List.lookup rw.1 REFERENCE_DATA_MALE, List.lookup rw.1 lb, List.lookup rw.1 rb with
  | some ref, some lhD, some rhD =>
      let zL := compositeZScore lhD ref (45, 30, 25)
      let zR := compositeZScore rhD ref (45, 30, 25)
      { totalIndex := acc.totalIndex + JSNum.fin rw.2 * (0.8 * zL + 0.2 * zR),
        totalWeight := acc.totalWeight + rw.2,
        details := acc.details ++ [{
          region := rw.1 ++ " (Broca)", regionWeight := rw.2,
          zL := JSNum.round3 zL, zR := JSNum.round3 zR,
          contribL := JSNum.round3 (JSNum.fin rw.2 * 0.8 * zL),
          contribR := JSNum.round3 (JSNum.fin rw.2 * 0.2 * zR),
          weightsUsed := "45:30:25" }] }
  | _, _, _ => acc

def langAcc (d : DKTData) : WAcc :=
  let acc1 := langDktRegionWeights.foldl (langDktStep d) ⟨0, 0, []⟩
  match d.lhBA, d.rhBA with
  | some lb, some rb => langBaRegionWeights.foldl (langBaStep lb rb) acc1
  | _, _ => acc1

/-- Final Language Composite value before display rounding: renormalized by
the total available weight when it is strictly between 0 and 1. -/
def langTotal (d : DKTData) : JSNum :=
  let a := langAcc d
  if 0 < a.totalWeight ∧ a.totalWeight < 1 then a.totalIndex / JSNum.fin a.totalWeight
  else a.totalIndex

/-- Language Composite Index. -/
noncomputable def calculateLanguageIndex (d : DKTData) : IndexResult :=
  { value := JSNum.round2 (langTotal d),
    percentile := zToPercentile (langTotal d),
    zScoreF := none,
    details := (langAcc d).details }

/-- Reading Fluency Index region weights. -/
def readingRegionWeights : List (String × ℚ) :=
  [("superiortemporal", 0.40), ("supramarginal", 0.25), ("inferiorparietal", 0.20), ("fusiform", 0.15)]

/-- Loop body of the Reading Fluency Index (0.75 left / 0.25 right blend). -/
def readingStep (d : DKTData) (acc : SymAcc) (rw : String × ℚ) : SymAcc :=
  match List.lookup rw.1 REFERENCE_DATA_MALE, List.lookup rw.1 d.lh, List.lookup rw.1 d.rh with
  | some ref, some lhD, some rhD =>
      let zL := compositeZScore lhD ref (50, 30, 20)
      let zR := compositeZScore rhD ref (50, 30, 20)
      { totalIndex := acc.totalIndex + JSNum.fin rw.2 * (0.75 * zL + 0.25 * zR),
        details := acc.details ++ [{
          region := rw.1, regionWeight := rw.2,
          zL := JSNum.round3 zL, zR := JSNum.round3 zR,
          contribL := JSNum.round3 (JSNum.fin rw.2 * 0.75 * zL),
          contribR := JSNum.round3 (JSNum.fin rw.2 * 0.25 * zR),
          weightsUsed := "50:30:20" }] }
  | _, _, _ => acc

def readingAcc (d : DKTData) : SymAcc := readingRegionWeights.foldl (readingStep d) ⟨0, []⟩

/-- Reading Fluency Index. -/
noncomputable def calculateReadingIndex (d : DKTData) : IndexResult :=
  { value := JSNum.round2 (readingAcc d).totalIndex,
    percentile := zToPercentile (readingAcc d).totalIndex,
    zScoreF := none,
    details := (readingAcc d).details }

/-- Empathy Index region weights. -/
def empathyRegionWeights : List (String × ℚ) :=
  [("rostralanteriorcingulate", 0.45), ("medialorbitofrontal", 0.25), ("insula", 0.20), ("posteriorcingulate", 0.10)]

/-- Loop body of the Empathy Index (symmetric mean blend). -/
def empathyStep (d : DKTData) (acc : SymAcc) (rw : String × ℚ) : SymAcc :=
  match List.lookup rw.1 REFERENCE_DATA_MALE, List.lookup rw.1 d.lh, List.lookup rw.1 d.rh with
  | some ref, some lhD, some rhD =>
      let zL := compositeZScore lhD ref (80, 10, 10)
      let zR := compositeZScore rhD ref (80, 10, 10)
      { totalIndex := acc.totalIndex + JSNum.fin rw.2 * ((zL + zR) / 2),
        details := acc.details ++ [{
          region := rw.1, regionWeight := rw.2,
          zL := JSNum.round3 zL, zR := JSNum.round3 zR,
          contribL := JSNum.round3 (JSNum.fin rw.2 * zL / 2),
          contribR := JSNum.round3 (JSNum.fin rw.2 * zR / 2),
          weightsUsed := "80:10:10" }] }
  | _, _, _ => acc

def empathyAcc (d : DKTData) : SymAcc := empathyRegionWeights.foldl (empathyStep d) ⟨0, []⟩

/-- Empathy Index. -/
noncomputable def calculateEmpathyIndex (d : DKTData) : IndexResult :=
  { value := JSNum.round2 (empathyAcc d).totalIndex,
    percentile := zToPercentile (empathyAcc d).totalIndex,
    zScoreF := none,
    details := (empathyAcc d).details }

/-- Executive Function Index region weights. -/
def executiveRegionWeights : List (String × ℚ) :=
  [("superiorfrontal", 0.40), ("rostralmiddlefrontal", 0.30), ("caudalmiddlefrontal", 0.20), ("parsopercularis", 0.10)]

/-- Loop body of the Executive Function Index (symmetric mean blend). -/
def executiveStep (d : DKTData) (acc : SymAcc) (rw : String × ℚ) : SymAcc :=
  match List.lookup rw.1 REFERENCE_DATA_MALE, List.lookup rw.1 d.lh, List.lookup rw.1 d.rh with
  | some ref, some lhD, some rhD =>
      let zL := compositeZScore lhD ref (35, 25, 40)
      let zR := compositeZScore rhD ref (35, 25, 40)
      { totalIndex := acc.totalIndex + JSNum.fin rw.2 * ((zL + zR) / 2),
        details := acc.details ++ [{
          region := rw.1, regionWeight := rw.2,
          zL := JSNum.round3 zL, zR := JSNum.round3 zR,
          contribL := JSNum.round3 (JSNum.fin rw.2 * zL / 2),
          contribR := JSNum.round3 (JSNum.fin rw.2 * zR / 2),
          weightsUsed := "35:25:40" }] }
  | _, _, _ => acc

def executiveAcc (d : DKTData) : SymAcc := executiveRegionWeights.foldl (executiveStep d) ⟨0, []⟩

/-- Executive Function Index. -/
noncomputable def calculateExecutiveIndex (d : DKTData) : IndexResult :=
  { value := JSNum.round2 (executiveAcc d).totalIndex,
    percentile := zToPercentile (executiveAcc d).totalIndex,
    zScoreF := none,
    details := (executiveAcc d).details }

/-- Spatial Processing Index region weights. -/
def spatialRegionWeights : List (String × ℚ) :=
  [("inferiorparietal", 0.50), ("superiorparietal", 0.35), ("precuneus", 0.15)]

/-- Loop body of the Spatial Processing Index (0.4 left / 0.6 right blend). -/
def spatialStep (d : DKTData) (acc : SymAcc) (rw : String × ℚ) : SymAcc :=
  match List.lookup rw.1 REFERENCE_DATA_MALE, List.lookup rw.1 d.lh, List.lookup rw.1 d.rh with
  | some ref, some lhD, some rhD =>
      let zL := compositeZScore lhD ref (20, 50, 30)
      let zR := compositeZScore rhD ref (20, 50, 30)
      { totalIndex := acc.totalIndex + JSNum.fin rw.2 * (0.4 * zL + 0.6 * zR),
        details := acc.details ++ [{
          region := rw.1, regionWeight := rw.2,
          zL := JSNum.round3 zL, zR := JSNum.round3 zR,
          contribL := JSNum.round3 (JSNum.fin rw.2 * 0.4 * zL),
          contribR := JSNum.round3 (JSNum.fin rw.2 * 0.6 * zR),
          weightsUsed := "20:50:30" }] }
  | _, _, _ => acc

def spatialAcc (d : DKTData) : SymAcc := spatialRegionWeights.foldl (spatialStep d) ⟨0, []⟩

/-- Spatial Processing Index. -/
noncomputable def calculateSpatialIndex (d : DKTData) : IndexResult :=
  { value := JSNum.round2 (spatialAcc d).totalIndex,
    percentile := zToPercentile (spatialAcc d).totalIndex,
    zScoreF := none,
    details := (spatialAcc d).details }

/-- Fluid Intelligence Index region weights. -/
def fluidRegionWeights : List (String × ℚ) :=
  [("superiorfrontal", 0.25), ("inferiorparietal", 0.20), ("superiortemporal", 0.20),
   ("rostralmiddlefrontal", 0.20), ("insula", 0.15)]

/-- Loop body of the Fluid Intelligence Index (symmetric mean blend). -/
def fluidStep (d : DKTData) (acc : SymAcc) (rw : String × ℚ) : SymAcc :=
  match List.lookup rw.1 REFERENCE_DATA_MALE, List.lookup rw.1 d.lh, List.lookup rw.1 d.rh with
  | some ref, some lhD, some rhD =>
      let zL := compositeZScore lhD ref (30, 30, 40)
      let zR := compositeZScore rhD ref (30, 30, 40)
      { totalIndex := acc.totalIndex + JSNum.fin rw.2 * ((zL + zR) / 2),
        details := acc.details ++ [{
          region := rw.1, regionWeight := rw.2,
          zL := JSNum.round3 zL, zR := JSNum.round3 zR,
          contribL := JSNum.round3 (JSNum.fin rw.2 * zL / 2),
          contribR := JSNum.round3 (JSNum.fin rw.2 * zR / 2),
          weightsUsed := "30:30:40" }] }
  | _, _, _ => acc

def fluidAcc (d : DKTData) : SymAcc := fluidRegionWeights.foldl (fluidStep d) ⟨0, []⟩

/-- Fluid Intelligence Index (Structural). -/
noncomputable def calculateFluidIntelligenceIndex (d : DKTData) : IndexResult :=
  { value := JSNum.round2 (fluidAcc d).totalIndex,
    percentile := zToPercentile (fluidAcc d).totalIndex,
    zScoreF := none,
    details := (fluidAcc d).details }

/-- Parietal IQ region configuration: region weight and per-metric weights. -/
structure PRegionCfg where
  name : String
  weight : ℚ
  wThick : ℚ
  wArea : ℚ
  wVol : ℚ
  rValue : ℚ
deriving DecidableEq, Repr

def parietalRegions : List PRegionCfg := [
  ⟨"supramarginal", 0.25, 0.55, 0.25, 0.20, 0.43⟩,
  ⟨"inferiorparietal", 0.25, 0.50, 0.28, 0.22, 0.40⟩,
  ⟨"superiorparietal", 0.22, 0.52, 0.28, 0.20, 0.36⟩,
  ⟨"precuneus", 0.18, 0.48, 0.30, 0.22, 0.35⟩,
  ⟨"posteriorcingulate", 0.10, 0.45, 0.30, 0.25, 0.28⟩]

/-- Loop body of the Parietal IQ Prediction Index: per-region metric-weighted
z-scores, bilateral mean, weight tracked for normalization. -/
def parietalStep (d : DKTData) (acc : WAcc) (cfg : PRegionCfg) : WAcc :=
  match List.lookup cfg.name REFERENCE_DATA_MALE, List.lookup cfg.name d.lh, List.lookup cfg.name d.rh with
  | some ref, some lh, some rh =>
      let zThickL := (lh.thickness - JSNum.fin ref.thickness.mean) / JSNum.fin ref.thickness.std
      let zThickR := (rh.thickness - JSNum.fin ref.thickness.mean) / JSNum.fin ref.thickness.std
      let zAreaL := (lh.surfArea - JSNum.fin ref.surfArea.mean) / JSNum.fin ref.surfArea.std
      let zAreaR := (rh.surfArea - JSNum.fin ref.surfArea.mean) / JSNum.fin ref.surfArea.std
      let zVolL := (lh.volume - JSNum.fin ref.volume.mean) / JSNum.fin ref.volume.std
      let zVolR := (rh.volume - JSNum.fin ref.volume.mean) / JSNum.fin ref.volume.std
      let zL := JSNum.fin cfg.wThick * zThickL + JSNum.fin cfg.wArea * zAreaL + JSNum.fin cfg.wVol * zVolL
      let zR := JSNum.fin cfg.wThick * zThickR + JSNum.fin cfg.wArea * zAreaR + JSNum.fin cfg.wVol * zVolR
      let avgZ := (zL + zR) / 2
      { totalIndex := acc.totalIndex + JSNum.fin cfg.weight * avgZ,
        totalWeight := acc.totalWeight + cfg.weight,
        details := acc.details ++ [{
          region := cfg.name, regionWeight := cfg.weight,
          zL := JSNum.round3 zL, zR := JSNum.round3 zR,
          contribL := JSNum.round3 (JSNum.fin cfg.weight * zL / 2),
          contribR := JSNum.round3 (JSNum.fin cfg.weight * zR / 2),
          weightsUsed := pctStr cfg.wThick ++ ":" ++ pctStr cfg.wArea ++ ":" ++ pctStr cfg.wVol }] }
  | _, _, _ => acc

def parietalAcc (d : DKTData) : WAcc := parietalRegions.foldl (parietalStep d) ⟨0, 0, []⟩

/-- Normalized Parietal IQ z-score (0 when the total weight is 0). -/
def parietalZ (d : DKTData) : JSNum :=
  let a := parietalAcc d
  if 0 < a.totalWeight then a.totalIndex / JSNum.fin a.totalWeight else 0

/-- Parietal IQ Prediction Index: the value is the regression-dilution
corrected IQ score 100 + z*15*0.40, rounded then clamped to [70, 145]. -/
noncomputable def calculateParietalIQIndex (d : DKTData) : IndexResult :=
  let z := parietalZ d
  let predictedIQ := JSNum.jround (100 + z * 15 * 0.40)
  let clampedIQ := JSNum.jmax 70 (JSNum.jmin 145 predictedIQ)
  { value := clampedIQ,
    percentile := zToPercentile z,
    zScoreF := some (JSNum.jround (z * 100) / 100),
    details := (parietalAcc d).details }

/-- BA-subregion configuration of the handedness-style calculators: region
weight and metric weights for thickness, surface area and folding index. -/
structure HandCfg where
  name : String
  weight : ℚ
  wThick : ℚ
  wArea : ℚ
  wFold : ℚ
deriving DecidableEq, Repr

def baRegionConfigs : List HandCfg := [
  ⟨"BA4a_exvivo", 0.35, 0.35, 0.35, 0.30⟩,
  ⟨"BA4p_exvivo", 0.35, 0.35, 0.35, 0.30⟩,
  ⟨"BA3b_exvivo", 0.30, 0.40, 0.30, 0.30⟩]

/-- Loop body of the Handedness Index: thickness, area and folding-index
z-scores per hemisphere; the folding term contributes zero when the curvature
reference or either hemisphere's folding index is absent. -/
def handStep (lb rb : List (String × DKTRegionData)) (acc : WAcc) (cfg : HandCfg) : WAcc :=
  match List.lookup cfg.name REFERENCE_DATA_MALE, List.lookup cfg.name lb, List.lookup cfg.name rb with
  | some ref, some lh, some rh =>
      let zThickL := (lh.thickness - JSNum.fin ref.thickness.mean) / JSNum.fin ref.thickness.std
      let zThickR := (rh.thickness - JSNum.fin ref.thickness.mean) / JSNum.fin ref.thickness.std
      let zAreaL := (lh.surfArea - JSNum.fin ref.surfArea.mean) / JSNum.fin ref.surfArea.std
      let zAreaR := (rh.surfArea - JSNum.fin ref.surfArea.mean) / JSNum.fin ref.surfArea.std
      let zFold : JSNum × JSNum :=
        match List.lookup cfg.name BA_CURVATURE_REFERENCE, lh.foldInd, rh.foldInd with
        | some curvRef, some lf, some rf =>
            ((lf - JSNum.fin curvRef.foldInd.mean) / JSNum.fin curvRef.foldInd.std,
             (rf - JSNum.fin curvRef.foldInd.mean) / JSNum.fin curvRef.foldInd.std)
        | _, _, _ => (0, 0)
      let zL := JSNum.fin cfg.wThick * zThickL + JSNum.fin cfg.wArea * zAreaL + JSNum.fin cfg.wFold * zFold.1
      let zR := JSNum.fin cfg.wThick * zThickR + JSNum.fin cfg.wArea * zAreaR + JSNum.fin cfg.wFold * zFold.2
      { totalIndex := acc.totalIndex + JSNum.fin cfg.weight * (zL - zR),
        totalWeight := acc.totalWeight + cfg.weight,
        details := acc.details ++ [{
          region := cfg.name, regionWeight := cfg.weight,
          zL := JSNum.round3 zL, zR := JSNum.round3 zR,
          contribL := JSNum.round3 (JSNum.fin cfg.weight * zL),
          contribR := JSNum.round3 (JSNum.fin cfg.weight * zR),
          weightsUsed := pctStr cfg.wThick ++ ":" ++ pctStr cfg.wArea ++ ":" ++ pctStr cfg.wFold }] }
  | _, _, _ => acc

/-- Handedness accumulator; none when a BA dataset is absent. -/
def handAcc (d : DKTData) : Option WAcc :=
  match d.lhBA, d.rhBA with
  | some lb, some rb => some (baRegionConfigs.foldl (handStep lb rb) ⟨0, 0, []⟩)
  | _, _ => none

/-- Final Handedness value before display rounding: the weighted sum divided
by the total contributing weight (0 when no BA data or no contributing region). -/
def handFinalIndex (d : DKTData) : JSNum :=
  match handAcc d with
  | none => 0
  | some a => if 0 < a.totalWeight then a.totalIndex / JSNum.fin a.totalWeight else 0

/-- Handedness Index; with no BA datasets it returns the fixed neutral result. -/
noncomputable def calculateHandednessIndex (d : DKTData) : IndexResult :=
  match handAcc d with
  | none => { value := 0, percentile := JSNum.fin 50, zScoreF := none, details := [] }
  | some a =>
      { value := JSNum.round3 (handFinalIndex d),
        percentile := zToPercentile (handFinalIndex d),
        zScoreF := none,
        details := a.details }

/-- Dominant Eye Index region weights. -/
def eyeRegionWeights : List (String × ℚ) :=
  [("pericalcarine", 0.70), ("cuneus", 0.15), ("lingual", 0.15)]

/-- Loop body of the Dominant Eye Index: a direct weight * (zL - zR) sum. -/
def eyeStep (d : DKTData) (acc : SymAcc) (rw : String × ℚ) : SymAcc :=
  match List.lookup rw.1 REFERENCE_DATA_MALE, List.lookup rw.1 d.lh, List.lookup rw.1 d.rh with
  | some ref, some lhD, some rhD =>
      let zL := compositeZScore lhD ref (92, 4, 4)
      let zR := compositeZScore rhD ref (92, 4, 4)
      { totalIndex := acc.totalIndex + JSNum.fin rw.2 * (zL - zR),
        details := acc.details ++ [{
          region := rw.1, regionWeight := rw.2,
          zL := JSNum.round3 zL, zR := JSNum.round3 zR,
          contribL := JSNum.round3 (JSNum.fin rw.2 * zL),
          contribR := JSNum.round3 (JSNum.fin rw.2 * zR),
          weightsUsed := "92:4:4" }] }
  | _, _, _ => acc

def eyeAcc (d : DKTData) : SymAcc := eyeRegionWeights.foldl (eyeStep d) ⟨0, []⟩

/-- Dominant Eye Index. -/
noncomputable def calculateDominantEyeIndex (d : DKTData) : IndexResult :=
  { value := JSNum.round3 (eyeAcc d).totalIndex,
    percentile := zToPercentile (eyeAcc d).totalIndex,
    zScoreF := none,
    details := (eyeAcc d).details }

/-- Preferred Nostril Index regions; piriform is approximated by entorhinal. -/
def nostrilRegions : List (String × ℚ) :=
  [("entorhinal", 0.45), ("parahippocampal", 0.20), ("medialorbitofrontal", 0.20),
   ("insula", 0.10), ("piriform", 0.05)]

/-- Loop body of the Preferred Nostril Index: right-minus-left convention,
with piriform reading the entorhinal measurements but keeping its own label. -/
def nostrilStep (d : DKTData) (acc : SymAcc) (r : String × ℚ) : SymAcc :=
  let actualName := if r.1 = "piriform" then "entorhinal" else r.1
  match List.lookup actualName REFERENCE_DATA_MALE, List.lookup actualName d.lh, List.lookup actualName d.rh with
  | some norm, some lhD, some rhD =>
      let zL := compositeZScore lhD norm (70, 20, 10)
      let zR := compositeZScore rhD norm (70, 20, 10)
      { totalIndex := acc.totalIndex + JSNum.fin r.2 * (zR - zL),
        details := acc.details ++ [{
          region := r.1, regionWeight := r.2,
          zL := JSNum.round3 zL, zR := JSNum.round3 zR,
          contribL := JSNum.round3 (JSNum.fin r.2 * zL),
          contribR := JSNum.round3 (JSNum.fin r.2 * zR),
          weightsUsed := "70:20:10" }] }
  | _, _, _ => acc

def nostrilAcc (d : DKTData) : SymAcc := nostrilRegions.foldl (nostrilStep d) ⟨0, []⟩

/-- Preferred Nostril percentile rule 50 + 40*value, clamped to [1, 99]. -/
def nostrilPercentile (oli : JSNum) : JSNum :=
  if oli.bge 0 then JSNum.jmin 99 (JSNum.jround (50 + oli * 40))
  else JSNum.jmax 1 (JSNum.jround (50 + oli * 40))

/-- Preferred Nostril Index. -/
def calculatePreferredNostrilIndex (d : DKTData) : IndexResult :=
  let oli := (nostrilAcc d).totalIndex
  { value := JSNum.round3 oli,
    percentile := nostrilPercentile oli,
    zScoreF := some (JSNum.round3 oli),
    details := (nostrilAcc d).details }

/-- Lateralization accumulator: separate left and right contribution sums. -/
structure LatAcc where
  sumContribL : JSNum
  sumContribR : JSNum
  totalWeight : ℚ
  details : List RegionDetail
deriving DecidableEq, Repr

/-- Broca-region configuration of the Language Output Lateralization Index. -/
def baBrocaRegions : List HandCfg := [
  ⟨"BA44_exvivo", 0.60, 0.40, 0.35, 0.25⟩,
  ⟨"BA45_exvivo", 0.40, 0.40, 0.35, 0.25⟩]

/-- Loop body of the Language Output Lateralization Index: the same
three-metric blend as handedness, accumulated as separate left and right
weighted contributions. -/
def langOutStep (lb rb : List (String × DKTRegionData)) (acc : LatAcc) (cfg : HandCfg) : LatAcc :=
  match List.lookup cfg.name REFERENCE_DATA_MALE, List.lookup cfg.name lb, List.lookup cfg.name rb with
  | some ref, some lh, some rh =>
      let zThickL := (lh.thickness - JSNum.fin ref.thickness.mean) / JSNum.fin ref.thickness.std
      let zThickR := (rh.thickness - JSNum.fin ref.thickness.mean) / JSNum.fin ref.thickness.std
      let zAreaL := (lh.surfArea - JSNum.fin ref.surfArea.mean) / JSNum.fin ref.surfArea.std
      let zAreaR := (rh.surfArea - JSNum.fin ref.surfArea.mean) / JSNum.fin ref.surfArea.std
      let zFold : JSNum × JSNum :=
        match List.lookup cfg.name BA_CURVATURE_REFERENCE, lh.foldInd, rh.foldInd with
        | some curvRef, some lf, some rf =>
            ((lf - JSNum.fin curvRef.foldInd.mean) / JSNum.fin curvRef.foldInd.std,
             (rf - JSNum.fin curvRef.foldInd.mean) / JSNum.fin curvRef.foldInd.std)
        | _, _, _ => (0, 0)
      let zL := JSNum.fin cfg.wThick * zThickL + JSNum.fin cfg.wArea * zAreaL + JSNum.fin cfg.wFold * zFold.1
      let zR := JSNum.fin cfg.wThick * zThickR + JSNum.fin cfg.wArea * zAreaR + JSNum.fin cfg.wFold * zFold.2
      let contribL := JSNum.fin cfg.weight * zL
      let contribR := JSNum.fin cfg.weight * zR
      { sumContribL := acc.sumContribL + contribL,
        sumContribR := acc.sumContribR + contribR,
        totalWeight := acc.totalWeight + cfg.weight,
        details := acc.details ++ [{
          region := cfg.name, regionWeight := cfg.weight,
          zL := JSNum.round3 zL, zR := JSNum.round3 zR,
          contribL := JSNum.round3 contribL,
          contribR := JSNum.round3 contribR,
          weightsUsed := pctStr cfg.wThick ++ ":" ++ pctStr cfg.wArea ++ ":" ++ pctStr cfg.wFold }] }
  | _, _, _ => acc

def langOutAcc (lb rb : List (String × DKTRegionData)) : LatAcc :=
  baBrocaRegions.foldl (langOutStep lb rb) ⟨0, 0, 0, []⟩

/-- The Language Output lateralization ratio
(sumL - sumR) / (abs sumL + abs sumR + 0.001); 0 when a BA dataset is absent
(the source then takes its early-return path with value 0). -/
def langOutLI (d : DKTData) : JSNum :=
  match d.lhBA, d.rhBA with
  | some lb, some rb =>
      let a := langOutAcc lb rb
      (a.sumContribL - a.sumContribR) / (JSNum.jabs a.sumContribL + JSNum.jabs a.sumContribR + 0.001)
  | _, _ => 0

/-- Piecewise-linear percentile bands of the Language Output Lateralization
Index, followed by the final round(max(1, min(99, p))) clamp. -/
def langOutputPercentile (li : JSNum) : JSNum :=
  let p :=
    if li.bge 0.25 then JSNum.jmin 99 (90 + (li - 0.25) * 30)
    else if li.bge 0.10 then 70 + (li - 0.10) * 133
    else if li.bge (-0.10) then 50 + li * 100
    else if li.bge (-0.25) then 20 + (li + 0.10) * 200
    else JSNum.jmax 1 (5 + (li + 0.25) * 60)
  JSNum.jround (JSNum.jmax 1 (JSNum.jmin 99 p))

/-- Language Output Lateralization Index; with no BA datasets it returns the
fixed neutral result. -/
def calculateLanguageOutputLateralization (d : DKTData) : IndexResult :=
  match d.lhBA, d.rhBA with
  | some lb, some rb =>
      let a := langOutAcc lb rb
      let li := (a.sumContribL - a.sumContribR) / (JSNum.jabs a.sumContribL + JSNum.jabs a.sumContribR + 0.001)
      { value := JSNum.round3 li,
        percentile := langOutputPercentile li,
        zScoreF := none,
        details := a.details }
  | _, _ => { value := 0, percentile := JSNum.fin 50, zScoreF := none, details := [] }

/-- Language-input region configuration: region weight and metric weights
for thickness, surface area and volume. -/
structure LangInCfg where
  name : String
  weight : ℚ
  wThick : ℚ
  wArea : ℚ
  wVol : ℚ
deriving DecidableEq, Repr

def DKT_LANGUAGE_INPUT_REGIONS : List LangInCfg := [
  ⟨"superiortemporal", 0.35, 0.68, 0.18, 0.14⟩,
  ⟨"inferiorparietal", 0.20, 0.55, 0.32, 0.13⟩,
  ⟨"middletemporal", 0.20, 0.60, 0.20, 0.20⟩,
  ⟨"supramarginal", 0.15, 0.48, 0.38, 0.14⟩,
  ⟨"fusiform", 0.10, 0.45, 0.20, 0.35⟩]

/-- Accumulator of the Language Input Lateralization Index: contribution
sums plus the bilateral-strength sum and the used-region labels. -/
structure InAcc where
  sumContribL : JSNum
  sumContribR : JSNum
  totalStrength : JSNum
  usedRegions : List String
  details : List RegionDetail
deriving DecidableEq, Repr

/-- Loop body of the Language Input Lateralization Index. -/
def langInStep (d : DKTData) (acc : InAcc) (cfg : LangInCfg) : InAcc :=
  match List.lookup cfg.name REFERENCE_DATA_MALE, List.lookup cfg.name d.lh, List.lookup cfg.name d.rh with
  | some norm, some lh, some rh =>
      let zL := JSNum.fin cfg.wThick * ((lh.thickness - JSNum.fin norm.thickness.mean) / JSNum.fin norm.thickness.std)
              + JSNum.fin cfg.wArea * ((lh.surfArea - JSNum.fin norm.surfArea.mean) / JSNum.fin norm.surfArea.std)
              + JSNum.fin cfg.wVol * ((lh.volume - JSNum.fin norm.volume.mean) / JSNum.fin norm.volume.std)
      let zR := JSNum.fin cfg.wThick * ((rh.thickness - JSNum.fin norm.thickness.mean) / JSNum.fin norm.thickness.std)
              + JSNum.fin cfg.wArea * ((rh.surfArea - JSNum.fin norm.surfArea.mean) / JSNum.fin norm.surfArea.std)
              + JSNum.fin cfg.wVol * ((rh.volume - JSNum.fin norm.volume.mean) / JSNum.fin norm.volume.std)
      let contribL := JSNum.fin cfg.weight * zL
      let contribR := JSNum.fin cfg.weight * zR
      { sumContribL := acc.sumContribL + contribL,
        sumContribR := acc.sumContribR + contribR,
        totalStrength := acc.totalStrength + (zL + zR) / 2 * JSNum.fin cfg.weight,
        usedRegions := acc.usedRegions ++ [cfg.name ++ " (" ++ pctStr cfg.weight ++ "%)"],
        details := acc.details ++ [{
          region := cfg.name, regionWeight := cfg.weight,
          zL := JSNum.round3 zL, zR := JSNum.round3 zR,
          contribL := JSNum.round3 contribL,
          contribR := JSNum.round3 contribR,
          weightsUsed := pctStr cfg.wThick ++ ":" ++ pctStr cfg.wArea ++ ":" ++ pctStr cfg.wVol }] }
  | _, _, _ => acc

def langInAcc (d : DKTData) : InAcc :=
  DKT_LANGUAGE_INPUT_REGIONS.foldl (langInStep d) ⟨0, 0, 0, [], []⟩

/-- The Language Input lateralization ratio
(sumL - sumR) / (abs sumL + abs sumR + 0.001). -/
def langInLI (d : DKTData) : JSNum :=
  let a := langInAcc d
  (a.sumContribL - a.sumContribR) / (JSNum.jabs a.sumContribL + JSNum.jabs a.sumContribR + 0.001)

/-- Piecewise-linear percentile bands of the Language Input Lateralization
Index. -/
def langInputPercentile (li : JSNum) : JSNum :=
  let p :=
    if li.bge 0.20 then JSNum.jmin 99 (90 + (li - 0.20) * 40)
    else if li.bge 0.05 then 70 + (li - 0.05) * 133
    else if li.bge (-0.05) then 50 + li * 200
    else if li.bge (-0.15) then 20 + (li + 0.05) * 300
    else JSNum.jmax 1 (5 + (li + 0.15) * 100)
  JSNum.jround (JSNum.jmax 1 (JSNum.jmin 99 p))

/-- Language Input Lateralization Index. -/
def calculateLanguageInputLateralization (d : DKTData) : IndexResult :=
  let a := langInAcc d
  let li := langInLI d
  { value := JSNum.round3 li,
    percentile := langInputPercentile li,
    zScoreF := some (JSNum.round3 a.totalStrength),
    details := a.details }

/-- Piecewise-linear percentile bands of the combined Language Lateralization
Index. -/
def langCombinedPercentile (combinedLI : JSNum) : JSNum :=
  let p :=
    if combinedLI.bge 0.20 then JSNum.jmin 99 (95 + (combinedLI - 0.20) * 20)
    else if combinedLI.bge 0.05 then 80 + (combinedLI - 0.05) * 100
    else if combinedLI.bge (-0.05) then 50 + combinedLI * 300
    else if combinedLI.bge (-0.15) then 20 + (combinedLI + 0.05) * 300
    else JSNum.jmax 1 (5 + (combinedLI + 0.15) * 100)
  JSNum.jround (JSNum.jmax 1 (JSNum.jmin 99 p))

/-- Combined Language Lateralization Index: 0.6 * output + 0.4 * input, with
the two sub-indices' detail lists concatenated and tagged by origin. -/
def calculateLanguageLateralizationIndex (d : DKTData) : IndexResult :=
  let outputResult := calculateLanguageOutputLateralization d
  let inputResult := calculateLanguageInputLateralization d
  let combinedLI := outputResult.value * 0.6 + inputResult.value * 0.4
  let allDetails :=
    outputResult.details.map (fun dt => { dt with region := dt.region ++ " (Output)" }) ++
    inputResult.details.map (fun dt => { dt with region := dt.region ++ " (Input)" })
  { value := JSNum.round3 combinedLI,
    percentile := langCombinedPercentile combinedLI,
    zScoreF := none,
    details := allDetails }

def hornerP (t : ℝ) : ℝ := (((((aC5 * t + aC4) * t) + aC3) * t + aC2) * t + aC1) * t

noncomputable def yAux (u : ℝ) : ℝ := 1 - hornerP (1 / (1 + pC * u)) * Real.exp (-u * u / 2)

noncomputable def cdfAux (z : ℝ) : ℝ := (0.5 * (1 + (if z < 0 then (-1 : ℝ) else 1) * yAux |z|)) * 100

def hornerPd (t : ℝ) : ℝ := 5 * aC5 * t ^ 4 + 4 * aC4 * t ^ 3 + 3 * aC3 * t ^ 2 + 2 * aC2 * t + aC1

/-- Shorthand for a finite measurement without curvature fields. -/
def mkMeas (t s v : ℚ) : DKTRegionData :=
  ⟨JSNum.fin t, JSNum.fin s, JSNum.fin v, none, none, none, none⟩

def emptyData : DKTData := ⟨[], [], none, none⟩

def emptyBAData : DKTData := ⟨[], [], some [], some []⟩

def handedLhBA : List (String × DKTRegionData) :=
  [("BA4a_exvivo", mkMeas 3.05 1550 4300), ("BA4p_exvivo", mkMeas 2.99 1200 2700),
   ("BA3b_exvivo", mkMeas 2.33 2350 4500)]

def handedRhBA : List (String × DKTRegionData) :=
  [("BA4a_exvivo", mkMeas 2.85 1300 4300), ("BA4p_exvivo", mkMeas 2.80 1000 2700),
   ("BA3b_exvivo", mkMeas 2.15 2000 4500)]

def handedData : DKTData := ⟨[], [], some handedLhBA, some handedRhBA⟩

def oneRegionLhBA : List (String × DKTRegionData) := [("BA4a_exvivo", mkMeas 3.05 1550 4300)]

def oneRegionRhBA : List (String × DKTRegionData) := [("BA4a_exvivo", mkMeas 2.85 1300 4300)]

def oneRegionData : DKTData := ⟨[], [], some oneRegionLhBA, some oneRegionRhBA⟩

def nanOlfData : DKTData := ⟨
  [("entorhinal", ⟨JSNum.nan, JSNum.fin 480, JSNum.fin 1600, none, none, none, none⟩),
   ("parahippocampal", mkMeas 2.75 700 2200), ("medialorbitofrontal", mkMeas 2.45 1800 5000)],
  [("entorhinal", mkMeas 3.20 480 1600),
   ("parahippocampal", mkMeas 2.75 700 2200), ("medialorbitofrontal", mkMeas 2.45 1800 5000)],
  none, none⟩

def skewedBrocaData : DKTData := ⟨[], [],
  some [("BA44_exvivo", mkMeas 4.60 1650 5200)],
  some [("BA44_exvivo", mkMeas 2.80 1650 5200)]⟩

/-- Modelled from the spec: the Dominant Eye loop contribution written as a
direct sum step, with no accumulator record and no renormalization. -/
def specEyeStepT (d : DKTData) (t : JSNum) (rw : String × ℚ) : JSNum :=
  match List.lookup rw.1 REFERENCE_DATA_MALE, List.lookup rw.1 d.lh, List.lookup rw.1 d.rh with
  | some ref, some lhD, some rhD =>
      t + JSNum.fin rw.2 * (compositeZScore lhD ref (92, 4, 4) - compositeZScore rhD ref (92, 4, 4))
  | _, _, _ => t

/-- Modelled from the spec: the direct, unnormalized Dominant Eye sum of
weight * (zL - zR) over the available regions. -/
def specEyeDirectSum (d : DKTData) : JSNum := eyeRegionWeights.foldl (specEyeStepT d) 0

/-- Modelled from the spec: one Handedness region's direct contribution
weight * (zL - zR), with the thickness/area/folding blend and the
fold-contributes-zero rule. -/
def specHandStepT (lb rb : List (String × DKTRegionData)) (t : JSNum) (cfg : HandCfg) : JSNum :=
  match List.lookup cfg.name REFERENCE_DATA_MALE, List.lookup cfg.name lb, List.lookup cfg.name rb with
  | some ref, some lh, some rh =>
      let zThickL := (lh.thickness - JSNum.fin ref.thickness.mean) / JSNum.fin ref.thickness.std
      let zThickR := (rh.thickness - JSNum.fin ref.thickness.mean) / JSNum.fin ref.thickness.std
      let zAreaL := (lh.surfArea - JSNum.fin ref.surfArea.mean) / JSNum.fin ref.surfArea.std
      let zAreaR := (rh.surfArea - JSNum.fin ref.surfArea.mean) / JSNum.fin ref.surfArea.std
      let zFold : JSNum × JSNum :=
        match List.lookup cfg.name BA_CURVATURE_REFERENCE, lh.foldInd, rh.foldInd with
        | some curvRef, some lf, some rf =>
            ((lf - JSNum.fin curvRef.foldInd.mean) / JSNum.fin curvRef.foldInd.std,
             (rf - JSNum.fin curvRef.foldInd.mean) / JSNum.fin curvRef.foldInd.std)
        | _, _, _ => (0, 0)
      let zL := JSNum.fin cfg.wThick * zThickL + JSNum.fin cfg.wArea * zAreaL + JSNum.fin cfg.wFold * zFold.1
      let zR := JSNum.fin cfg.wThick * zThickR + JSNum.fin cfg.wArea * zAreaR + JSNum.fin cfg.wFold * zFold.2
      t + JSNum.fin cfg.weight * (zL - zR)
  | _, _, _ => t

/-- Modelled from the spec: the direct, unnormalized Handedness sum. -/
def specHandDirectSum (lb rb : List (String × DKTRegionData)) : JSNum :=
  baRegionConfigs.foldl (specHandStepT lb rb) 0

/-- Total contributing Handedness weight over the available regions. -/
def specHandStepW (lb rb : List (String × DKTRegionData)) (w : ℚ) (cfg : HandCfg) : ℚ :=
  match List.lookup cfg.name REFERENCE_DATA_MALE, List.lookup cfg.name lb, List.lookup cfg.name rb with
  | some _, some _, some _ => w + cfg.weight
  | _, _, _ => w

def specHandWeightSum (lb rb : List (String × DKTRegionData)) : ℚ :=
  baRegionConfigs.foldl (specHandStepW lb rb) 0

/-- The Handedness direct sum read off a full dataset (0 with no BA data). -/
def specHandDirectSumD (d : DKTData) : JSNum :=
  match d.lhBA, d.rhBA with
  | some lb, some rb => specHandDirectSum lb rb
  | _, _ => 0

/-- Neutral degraded result: the given value, percentile 50, no details. -/
def neutralAt (r : IndexResult) (v : ℚ) : Prop :=
  r.value = JSNum.fin v ∧ r.percentile = JSNum.fin 50 ∧ r.details = []

/-- Modelled from the spec: the weighted olfactory combination over only the
regions whose composite z-scores are finite; a NaN composite is excluded. -/
def specOlfactoryFiniteCombination (d : DKTData) : JSNum :=
  JSNum.round2 (olfRegionWeights.foldl (fun t rw =>
    match List.lookup rw.1 REFERENCE_DATA_MALE, List.lookup rw.1 d.lh, List.lookup rw.1 d.rh with
    | some ref, some lhD, some rhD =>
        let zL := compositeZScore lhD ref (80, 10, 10)
        let zR := compositeZScore rhD ref (80, 10, 10)
        if zL.isFin && zR.isFin then t + JSNum.fin rw.2 * ((zL + zR) / 2) else t
    | _, _, _ => t) 0)

/-- Whether every numeric field of a measurement that the lateralization
calculators read is finite. -/
def finMeasB (r : DKTRegionData) : Bool :=
  r.thickness.isFin && r.surfArea.isFin && r.volume.isFin &&
    (match r.foldInd with
     | none => true
     | some f => f.isFin)

def allFinB (l : List (String × DKTRegionData)) : Bool := l.all fun e => finMeasB e.2

/-- Whether every measurement stored anywhere in the dataset is finite. -/
def dataFinB (d : DKTData) : Bool :=
  allFinB d.lh && allFinB d.rh &&
    (match d.lhBA with
     | some l => allFinB l
     | none => true) &&
    (match d.rhBA with
     | some l => allFinB l
     | none => true)

theorem JSNum.add_fin_fin (a b : ℚ) : (fin a) + (fin b) = fin (a + b) := rfl

theorem JSNum.sub_fin_fin (a b : ℚ) : (fin a) - (fin b) = fin (a - b) := by
  show sub (fin a) (fin b) = fin (a - b)
  simp [sub, add, neg, sub_eq_add_neg]

theorem JSNum.mul_fin_fin (a b : ℚ) : (fin a) * (fin b) = fin (a * b) := rfl

theorem JSNum.div_fin_fin (a b : ℚ) (hb : b ≠ 0) : (fin a) / (fin b) = fin (a / b) := by
  show div (fin a) (fin b) = fin (a / b)
  simp [div, hb]

theorem JSNum.nan_add (x : JSNum) : nan + x = nan := by
  show add nan x = nan
  cases x <;> rfl

theorem JSNum.add_nan (x : JSNum) : x + nan = nan := by
  show add x nan = nan
  cases x <;> rfl

theorem zToPercentileR_eq (z : ℝ) : zToPercentileR z = round (cdfAux z) := rfl

theorem hornerP_expand (t : ℝ) : hornerP t = aC5 * t ^ 5 + aC4 * t ^ 4 + aC3 * t ^ 3 + aC2 * t ^ 2 + aC1 * t := by
  unfold hornerP; ring

theorem hornerPd_nonneg (t : ℝ) : 0 ≤ hornerPd t := by
  have h1 := sq_nonneg ((23 / 10) * t ^ 2 - (1453152027 / 1150000000) * t + 33 / 100)
  have h2 := sq_nonneg (t ^ 2)
  have h3 := sq_nonneg (t + 175224260886500000 / 1520253203843291271)
  unfold hornerPd aC5 aC4 aC3 aC2 aC1
  nlinarith [h1, h2, h3]

theorem hornerP_hasDeriv (t : ℝ) : HasDerivAt hornerP (hornerPd t) t := by
  have he : hornerP = fun x : ℝ => aC5 * x ^ 5 + aC4 * x ^ 4 + aC3 * x ^ 3 + aC2 * x ^ 2 + aC1 * x := by
    funext x; rw [hornerP_expand]
  rw [he]
  have h5 : HasDerivAt (fun x : ℝ => aC5 * x ^ 5) (aC5 * (5 * t ^ 4)) t := by
    simpa using (hasDerivAt_pow 5 t).const_mul aC5
  have h4 : HasDerivAt (fun x : ℝ => aC4 * x ^ 4) (aC4 * (4 * t ^ 3)) t := by
    simpa using (hasDerivAt_pow 4 t).const_mul aC4
  have h3 : HasDerivAt (fun x : ℝ => aC3 * x ^ 3) (aC3 * (3 * t ^ 2)) t := by
    simpa using (hasDerivAt_pow 3 t).const_mul aC3
  have h2 : HasDerivAt (fun x : ℝ => aC2 * x ^ 2) (aC2 * (2 * t)) t := by
    simpa using (hasDerivAt_pow 2 t).const_mul aC2
  have h1 : HasDerivAt (fun x : ℝ => aC1 * x) aC1 t := by
    simpa using (hasDerivAt_id t).const_mul aC1
  have h := (((h5.add h4).add h3).add h2).add h1
  convert h using 1
  unfold hornerPd; ring

theorem hornerP_monoOn : MonotoneOn hornerP (Set.Icc (0 : ℝ) 1) := by
  apply monotoneOn_of_deriv_nonneg (convex_Icc 0 1)
  · have hc : Continuous hornerP := by
      unfold hornerP; continuity
    exact hc.continuousOn
  · intro x _
    exact (hornerP_hasDeriv x).differentiableAt.differentiableWithinAt
  · intro x _
    rw [(hornerP_hasDeriv x).deriv]
    exact hornerPd_nonneg x

theorem hornerP_zero : hornerP 0 = 0 := by
  unfold hornerP; ring

theorem hornerP_one_lt : hornerP 1 < 1 := by
  rw [hornerP_expand]
  unfold aC5 aC4 aC3 aC2 aC1
  norm_num

theorem hornerP_one_nonneg : (0 : ℝ) ≤ hornerP 1 := by
  rw [hornerP_expand]
  unfold aC5 aC4 aC3 aC2 aC1
  norm_num

theorem pC_pos : (0 : ℝ) < pC := by unfold pC; norm_num

theorem tMap_denom_pos {u : ℝ} (hu : 0 ≤ u) : (0 : ℝ) < 1 + pC * u := by
  have := pC_pos
  have : (0:ℝ) ≤ pC * u := mul_nonneg (le_of_lt pC_pos) hu
  norm_num; linarith

theorem tMap_mem {u : ℝ} (hu : 0 ≤ u) : (1 / (1 + pC * u)) ∈ Set.Icc (0 : ℝ) 1 := by
  have hd := tMap_denom_pos hu
  constructor
  · positivity
  · rw [div_le_one hd]
    have : (0:ℝ) ≤ pC * u := mul_nonneg (le_of_lt pC_pos) hu
    norm_num; linarith

theorem tMap_anti {u1 u2 : ℝ} (h1 : 0 ≤ u1) (h12 : u1 ≤ u2) :
    (1 / (1 + pC * u2)) ≤ 1 / (1 + pC * u1) := by
  have hd1 := tMap_denom_pos h1
  have hle : 1 + pC * u1 ≤ 1 + pC * u2 := by
    have : pC * u1 ≤ pC * u2 := mul_le_mul_of_nonneg_left h12 (le_of_lt pC_pos)
    linarith
  exact one_div_le_one_div_of_le hd1 hle

theorem hornerP_t_nonneg {u : ℝ} (hu : 0 ≤ u) : 0 ≤ hornerP (1 / (1 + pC * u)) := by
  have h := hornerP_monoOn (Set.left_mem_Icc.mpr zero_le_one) (tMap_mem hu) (tMap_mem hu).1
  rwa [hornerP_zero] at h

theorem hornerP_t_le_one {u : ℝ} (hu : 0 ≤ u) : hornerP (1 / (1 + pC * u)) ≤ 1 := by
  have h := hornerP_monoOn (tMap_mem hu) (Set.right_mem_Icc.mpr zero_le_one) (tMap_mem hu).2
  linarith [hornerP_one_lt]

theorem expFac_le_one (u : ℝ) : Real.exp (-u * u / 2) ≤ 1 := by
  rw [show (1 : ℝ) = Real.exp 0 by rw [Real.exp_zero]]
  apply Real.exp_le_exp.mpr
  nlinarith [sq_nonneg u]

theorem yAux_nonneg {u : ℝ} (hu : 0 ≤ u) : 0 ≤ yAux u := by
  unfold yAux
  have h1 := hornerP_t_le_one hu
  have h2 := expFac_le_one u
  have h3 := Real.exp_pos (-u * u / 2)
  have h4 := hornerP_t_nonneg hu
  nlinarith

theorem yAux_mono {u1 u2 : ℝ} (h1 : 0 ≤ u1) (h12 : u1 ≤ u2) : yAux u1 ≤ yAux u2 := by
  unfold yAux
  have hP : hornerP (1 / (1 + pC * u2)) ≤ hornerP (1 / (1 + pC * u1)) :=
    hornerP_monoOn (tMap_mem (le_trans h1 h12)) (tMap_mem h1) (tMap_anti h1 h12)
  have hE : Real.exp (-u2 * u2 / 2) ≤ Real.exp (-u1 * u1 / 2) := by
    apply Real.exp_le_exp.mpr
    nlinarith
  have hPn := hornerP_t_nonneg (le_trans h1 h12)
  have hPn1 := hornerP_t_nonneg h1
  have hEp := Real.exp_pos (-u2 * u2 / 2)
  nlinarith

theorem cdfAux_mono {z1 z2 : ℝ} (h : z1 ≤ z2) : cdfAux z1 ≤ cdfAux z2 := by
  unfold cdfAux
  rcases lt_or_le z1 0 with hz1 | hz1
  · rcases lt_or_le z2 0 with hz2 | hz2
    · rw [if_pos hz1, if_pos hz2, abs_of_neg hz1, abs_of_neg hz2]
      have := yAux_mono (neg_nonneg.mpr (le_of_lt hz2)) (neg_le_neg h)
      nlinarith
    · rw [if_pos hz1, if_neg (not_lt.mpr hz2), abs_of_neg hz1, abs_of_nonneg hz2]
      have hy1 := yAux_nonneg (neg_nonneg.mpr (le_of_lt hz1))
      have hy2 := yAux_nonneg hz2
      nlinarith
  · have hz2 : (0:ℝ) ≤ z2 := le_trans hz1 h
    rw [if_neg (not_lt.mpr hz1), if_neg (not_lt.mpr hz2), abs_of_nonneg hz1, abs_of_nonneg hz2]
    have := yAux_mono hz1 h
    nlinarith

theorem zToPercentileR_zero : zToPercentileR 0 = 50 := by
  rw [zToPercentileR_eq]
  have h0 : cdfAux 0 = (0.5 * (1 + (1 - hornerP 1 * Real.exp 0))) * 100 := by
    unfold cdfAux yAux
    norm_num
  rw [h0, Real.exp_zero, hornerP_expand]
  unfold aC5 aC4 aC3 aC2 aC1
  rw [round_eq]
  norm_num [Int.floor_eq_iff]

theorem zToPercentile_fin_zero : zToPercentile (JSNum.fin 0) = JSNum.fin 50 := by
  show JSNum.fin ((zToPercentileR ((0:ℚ) : ℝ) : ℤ) : ℚ) = JSNum.fin 50
  rw [show ((0:ℚ):ℝ) = 0 by norm_num, zToPercentileR_zero]
  norm_num

theorem eyeStep_total (d : DKTData) (acc : SymAcc) (rw : String × ℚ) :
    (eyeStep d acc rw).totalIndex = specEyeStepT d acc.totalIndex rw := by
  unfold eyeStep specEyeStepT
  cases List.lookup rw.1 REFERENCE_DATA_MALE <;>
    cases List.lookup rw.1 d.lh <;>
      cases List.lookup rw.1 d.rh <;> rfl

theorem eyeFold_total (d : DKTData) (rws : List (String × ℚ)) (acc : SymAcc) :
    (rws.foldl (eyeStep d) acc).totalIndex = rws.foldl (specEyeStepT d) acc.totalIndex := by
  induction rws generalizing acc with
  | nil => rfl
  | cons rw rest ih =>
      simp only [List.foldl_cons]
      rw [ih, eyeStep_total]

theorem handStep_proj (lb rb : List (String × DKTRegionData)) (acc : WAcc) (cfg : HandCfg) :
    (handStep lb rb acc cfg).totalIndex = specHandStepT lb rb acc.totalIndex cfg ∧
    (handStep lb rb acc cfg).totalWeight = specHandStepW lb rb acc.totalWeight cfg := by
  unfold handStep specHandStepT specHandStepW
  cases List.lookup cfg.name REFERENCE_DATA_MALE <;>
    cases List.lookup cfg.name lb <;>
      cases List.lookup cfg.name rb <;> exact ⟨rfl, rfl⟩

theorem handFold_proj (lb rb : List (String × DKTRegionData)) (cfgs : List HandCfg) (acc : WAcc) :
    (cfgs.foldl (handStep lb rb) acc).totalIndex = cfgs.foldl (specHandStepT lb rb) acc.totalIndex ∧
    (cfgs.foldl (handStep lb rb) acc).totalWeight = cfgs.foldl (specHandStepW lb rb) acc.totalWeight := by
  induction cfgs generalizing acc with
  | nil => exact ⟨rfl, rfl⟩
  | cons c cs ih =>
      simp only [List.foldl_cons]
      have h := ih (handStep lb rb acc c)
      rw [h.1, h.2, (handStep_proj lb rb acc c).1, (handStep_proj lb rb acc c).2]
      exact ⟨rfl, rfl⟩

theorem neutralOlf : neutralAt (calculateOlfactoryIndex emptyData) 0 := by
  refine ⟨by with_unfolding_all decide, ?_, by with_unfolding_all decide⟩
  show zToPercentile (olfAcc emptyData).totalIndex = JSNum.fin 50
  rw [show (olfAcc emptyData).totalIndex = JSNum.fin 0 from by with_unfolding_all decide]
  exact zToPercentile_fin_zero

theorem neutralLang : neutralAt (calculateLanguageIndex emptyData) 0 := by
  refine ⟨by with_unfolding_all decide, ?_, by with_unfolding_all decide⟩
  show zToPercentile (langTotal emptyData) = JSNum.fin 50
  rw [show langTotal emptyData = JSNum.fin 0 from by with_unfolding_all decide]
  exact zToPercentile_fin_zero

theorem neutralReading : neutralAt (calculateReadingIndex emptyData) 0 := by
  refine ⟨by with_unfolding_all decide, ?_, by with_unfolding_all decide⟩
  show zToPercentile (readingAcc emptyData).totalIndex = JSNum.fin 50
  rw [show (readingAcc emptyData).totalIndex = JSNum.fin 0 from by with_unfolding_all decide]
  exact zToPercentile_fin_zero

theorem neutralEmpathy : neutralAt (calculateEmpathyIndex emptyData) 0 := by
  refine ⟨by with_unfolding_all decide, ?_, by with_unfolding_all decide⟩
  show zToPercentile (empathyAcc emptyData).totalIndex = JSNum.fin 50
  rw [show (empathyAcc emptyData).totalIndex = JSNum.fin 0 from by with_unfolding_all decide]
  exact zToPercentile_fin_zero

theorem neutralExecutive : neutralAt (calculateExecutiveIndex emptyData) 0 := by
  refine ⟨by with_unfolding_all decide, ?_, by with_unfolding_all decide⟩
  show zToPercentile (executiveAcc emptyData).totalIndex = JSNum.fin 50
  rw [show (executiveAcc emptyData).totalIndex = JSNum.fin 0 from by with_unfolding_all decide]
  exact zToPercentile_fin_zero

theorem neutralSpatial : neutralAt (calculateSpatialIndex emptyData) 0 := by
  refine ⟨by with_unfolding_all decide, ?_, by with_unfolding_all decide⟩
  show zToPercentile (spatialAcc emptyData).totalIndex = JSNum.fin 50
  rw [show (spatialAcc emptyData).totalIndex = JSNum.fin 0 from by with_unfolding_all decide]
  exact zToPercentile_fin_zero

theorem neutralFluid : neutralAt (calculateFluidIntelligenceIndex emptyData) 0 := by
  refine ⟨by with_unfolding_all decide, ?_, by with_unfolding_all decide⟩
  show zToPercentile (fluidAcc emptyData).totalIndex = JSNum.fin 50
  rw [show (fluidAcc emptyData).totalIndex = JSNum.fin 0 from by with_unfolding_all decide]
  exact zToPercentile_fin_zero

theorem neutralParietal : neutralAt (calculateParietalIQIndex emptyData) 100 ∧
    (calculateParietalIQIndex emptyData).zScoreF = some (JSNum.fin 0) := by
  refine ⟨⟨by with_unfolding_all decide, ?_, by with_unfolding_all decide⟩, by with_unfolding_all decide⟩
  show zToPercentile (parietalZ emptyData) = JSNum.fin 50
  rw [show parietalZ emptyData = JSNum.fin 0 from by with_unfolding_all decide]
  exact zToPercentile_fin_zero

theorem neutralHand : neutralAt (calculateHandednessIndex emptyData) 0 := by
  refine ⟨by with_unfolding_all decide, by with_unfolding_all decide, by with_unfolding_all decide⟩

theorem neutralHandBA : neutralAt (calculateHandednessIndex emptyBAData) 0 := by
  refine ⟨by with_unfolding_all decide, ?_, by with_unfolding_all decide⟩
  show zToPercentile (handFinalIndex emptyBAData) = JSNum.fin 50
  rw [show handFinalIndex emptyBAData = JSNum.fin 0 from by with_unfolding_all decide]
  exact zToPercentile_fin_zero

theorem neutralEye : neutralAt (calculateDominantEyeIndex emptyData) 0 := by
  refine ⟨by with_unfolding_all decide, ?_, by with_unfolding_all decide⟩
  show zToPercentile (eyeAcc emptyData).totalIndex = JSNum.fin 50
  rw [show (eyeAcc emptyData).totalIndex = JSNum.fin 0 from by with_unfolding_all decide]
  exact zToPercentile_fin_zero

theorem neutralNostril : neutralAt (calculatePreferredNostrilIndex emptyData) 0 := by
  refine ⟨by with_unfolding_all decide, by with_unfolding_all decide, by with_unfolding_all decide⟩

theorem neutralLangOut : neutralAt (calculateLanguageOutputLateralization emptyData) 0 := by
  refine ⟨by with_unfolding_all decide, by with_unfolding_all decide, by with_unfolding_all decide⟩

theorem neutralLangOutBA : neutralAt (calculateLanguageOutputLateralization emptyBAData) 0 := by
  refine ⟨by with_unfolding_all decide, by with_unfolding_all decide, by with_unfolding_all decide⟩

theorem neutralLangIn : neutralAt (calculateLanguageInputLateralization emptyData) 0 := by
  refine ⟨by with_unfolding_all decide, by with_unfolding_all decide, by with_unfolding_all decide⟩

theorem neutralCombined : neutralAt (calculateLanguageLateralizationIndex emptyData) 0 := by
  refine ⟨by with_unfolding_all decide, by with_unfolding_all decide, by with_unfolding_all decide⟩

theorem nan_mul (x : JSNum) : JSNum.nan * x = JSNum.nan := by
  show JSNum.mul JSNum.nan x = JSNum.nan
  cases x <;> rfl

theorem mul_nan (x : JSNum) : x * JSNum.nan = JSNum.nan := by
  show JSNum.mul x JSNum.nan = JSNum.nan
  cases x <;> rfl

theorem nan_sub (x : JSNum) : JSNum.nan - x = JSNum.nan := by
  show JSNum.add JSNum.nan (JSNum.neg x) = JSNum.nan
  cases x <;> rfl

theorem nan_div (x : JSNum) : JSNum.nan / x = JSNum.nan := by
  show JSNum.div JSNum.nan x = JSNum.nan
  cases x <;> rfl

theorem compositeZScore_nan_thickness (dta : DKTRegionData) (ref : RefEntry) (w : ℚ × ℚ × ℚ)
    (h : dta.thickness = JSNum.nan) : compositeZScore dta ref w = JSNum.nan := by
  unfold compositeZScore zScore
  rw [h]
  simp only [nan_sub, nan_div, nan_mul, JSNum.nan_add]

theorem olfStep_nan (d : DKTData) (acc : SymAcc) (rw : String × ℚ)
    (h : acc.totalIndex = JSNum.nan) : (olfStep d acc rw).totalIndex = JSNum.nan := by
  unfold olfStep
  cases List.lookup rw.1 REFERENCE_DATA_MALE <;>
    cases List.lookup rw.1 d.lh <;>
      cases List.lookup rw.1 d.rh <;>
        simp only [h, JSNum.nan_add]

theorem olfFold_nan (d : DKTData) (rws : List (String × ℚ)) (acc : SymAcc)
    (h : acc.totalIndex = JSNum.nan) : ((rws.foldl (olfStep d) acc).totalIndex) = JSNum.nan := by
  induction rws generalizing acc with
  | nil => exact h
  | cons rw rest ih =>
      simp only [List.foldl_cons]
      exact ih _ (olfStep_nan d acc rw h)

/-- C1 (amended): the olfactory calculator has no finiteness check, so a NaN
measurement is not excluded: whenever the entorhinal region is present in
both hemispheres and its left thickness is NaN, the NaN propagates through
the composite z-score and the weighted sum, and the returned index value is
NaN rather than the weighted combination over the finite regions. -/
theorem claim_C1 (d : DKTData) (eL eR : DKTRegionData)
    (h1 : List.lookup "entorhinal" d.lh = some eL) (h2 : eL.thickness = JSNum.nan)
    (h3 : List.lookup "entorhinal" d.rh = some eR) :
    (calculateOlfactoryIndex d).value = JSNum.nan := by
  have hstep : (olfStep d ⟨0, []⟩ ("entorhinal", 0.60)).totalIndex = JSNum.nan := by
    unfold olfStep
    rw [show List.lookup ("entorhinal", (0.60 : ℚ)).1 REFERENCE_DATA_MALE =
      some ⟨⟨3.20, 0.35⟩, ⟨480, 100⟩, ⟨1600, 350⟩⟩ from by with_unfolding_all decide]
    rw [show List.lookup ("entorhinal", (0.60 : ℚ)).1 d.lh = some eL from h1]
    rw [show List.lookup ("entorhinal", (0.60 : ℚ)).1 d.rh = some eR from h3]
    simp only [compositeZScore_nan_thickness eL _ _ h2, JSNum.nan_add, nan_div, mul_nan,
      JSNum.add_nan]
  have hruns : (olfAcc d).totalIndex = JSNum.nan := by
    show ((olfRegionWeights.foldl (olfStep d) ⟨0, []⟩).totalIndex) = JSNum.nan
    rw [show olfRegionWeights = ("entorhinal", (0.60 : ℚ)) ::
      [("parahippocampal", 0.20), ("medialorbitofrontal", 0.20)] from rfl]
    simp only [List.foldl_cons]
    exact olfFold_nan d [("parahippocampal", 0.20), ("medialorbitofrontal", 0.20)] _ hstep
  show JSNum.round2 (olfAcc d).totalIndex = JSNum.nan
  rw [hruns]
  rfl

/-- C1 counterexample: on a dataset whose entorhinal left thickness is NaN
(and whose other olfactory regions sit exactly at the reference means), the
olfactory index value is NaN, while the spec-modelled combination over only
the regions with finite composite z-scores is 0; the two disagree, so a NaN
region is not excluded from the final value. -/
theorem claim_C1_counterexample :
    (calculateOlfactoryIndex nanOlfData).value = JSNum.nan ∧
    specOlfactoryFiniteCombination nanOlfData = JSNum.fin 0 ∧
    (calculateOlfactoryIndex nanOlfData).value ≠ specOlfactoryFiniteCombination nanOlfData := by
  refine ⟨?_, ?_, ?_⟩ <;> with_unfolding_all decide

/-- C1 witness: the amended theorem applied at the concrete NaN dataset. -/
theorem claim_C1_witness :
    List.lookup "entorhinal" nanOlfData.lh =
      some ⟨JSNum.nan, JSNum.fin 480, JSNum.fin 1600, none, none, none, none⟩ ∧
    (calculateOlfactoryIndex nanOlfData).value = JSNum.nan := by
  refine ⟨by with_unfolding_all decide, ?_⟩
  exact claim_C1 nanOlfData ⟨JSNum.nan, JSNum.fin 480, JSNum.fin 1600, none, none, none, none⟩
    (mkMeas 3.20 480 1600) (by with_unfolding_all decide) rfl (by with_unfolding_all decide)

/-- C2 counterexample: zScore with std 0 does not fail; JavaScript division
by zero returns a value, here Infinity for zScore(5, 3, 0). -/
theorem claim_C2_counterexample :
    zScore (JSNum.fin 5) (JSNum.fin 3) (JSNum.fin 0) = JSNum.inf true := by
  with_unfolding_all decide

/-- C2 (amended): zScore with std 0 returns Infinity (or NaN when the value
equals the mean) instead of raising, and no load-time validation exists;
however every entry of both static reference tables has a strictly positive
standard deviation, so a zero-std division cannot arise from the shipped
tables. -/
theorem claim_C2 :
    zScore (JSNum.fin 5) (JSNum.fin 3) (JSNum.fin 0) = JSNum.inf true ∧
    zScore (JSNum.fin 3) (JSNum.fin 3) (JSNum.fin 0) = JSNum.nan ∧
    (REFERENCE_DATA_MALE.all fun e =>
      decide (0 < e.2.thickness.std) && decide (0 < e.2.surfArea.std) &&
        decide (0 < e.2.volume.std)) = true ∧
    (BA_CURVATURE_REFERENCE.all fun e =>
      decide (0 < e.2.meanCurv.std) && decide (0 < e.2.foldInd.std)) = true := by
  refine ⟨?_, ?_, ?_, ?_⟩ <;> with_unfolding_all decide

/-- C3 counterexample: with only BA4a available (left thickness and area one
reference SD above the means, right at the means), the direct unnormalized
Handedness sum is 0.245 but the calculator returns 0.7, because the source
divides the sum by the total available weight 0.35. -/
theorem claim_C3_counterexample :
    (calculateHandednessIndex oneRegionData).value = JSNum.fin (7/10) ∧
    specHandDirectSumD oneRegionData = JSNum.fin (49/200) ∧
    (calculateHandednessIndex oneRegionData).value ≠
      JSNum.round3 (specHandDirectSumD oneRegionData) := by
  refine ⟨?_, ?_, ?_⟩ <;> with_unfolding_all decide

/-- C3 (amended): the Dominant Eye value is the direct unnormalized sum of
weight * (zL - zR) over the available regions (up to the 3-decimal display
rounding), but the Handedness value is that direct sum divided by the total
available region weight (0 when no BA data or no contributing region); the
two coincide only when all three regions contribute, since the configured
weights sum to 1. -/
theorem claim_C3 :
    (∀ d : DKTData, (calculateDominantEyeIndex d).value = JSNum.round3 (specEyeDirectSum d)) ∧
    (∀ d : DKTData, handFinalIndex d =
      (match d.lhBA, d.rhBA with
       | some lb, some rb =>
           if 0 < specHandWeightSum lb rb then
             specHandDirectSum lb rb / JSNum.fin (specHandWeightSum lb rb)
           else 0
       | _, _ => 0)) := by
  constructor
  · intro d
    show JSNum.round3 (eyeAcc d).totalIndex = JSNum.round3 (specEyeDirectSum d)
    rw [show (eyeAcc d).totalIndex = eyeRegionWeights.foldl (specEyeStepT d) (0 : JSNum) from
      eyeFold_total d eyeRegionWeights ⟨0, []⟩]
    rfl
  · intro d
    unfold handFinalIndex handAcc
    cases d.lhBA <;> cases d.rhBA <;> try rfl
    dsimp only
    rw [(handFold_proj _ _ baRegionConfigs ⟨0, 0, []⟩).1,
        (handFold_proj _ _ baRegionConfigs ⟨0, 0, []⟩).2]
    rfl

/-- C3 witness: the amended statement instantiated at concrete datasets. -/
theorem claim_C3_witness :
    (calculateDominantEyeIndex emptyData).value = JSNum.round3 (specEyeDirectSum emptyData) ∧
    handFinalIndex oneRegionData =
      (match oneRegionData.lhBA, oneRegionData.rhBA with
       | some lb, some rb =>
           if 0 < specHandWeightSum lb rb then
             specHandDirectSum lb rb / JSNum.fin (specHandWeightSum lb rb)
           else 0
       | _, _ => 0) :=
  ⟨claim_C3.1 emptyData, claim_C3.2 oneRegionData⟩

/-- C4 counterexample: on a dataset missing all regions, the Parietal IQ
calculator returns value 100 (the IQ-scaled neutral score), not 0. -/
theorem claim_C4_counterexample :
    (calculateParietalIQIndex emptyData).value = JSNum.fin 100 ∧
    (calculateParietalIQIndex emptyData).value ≠ JSNum.fin 0 := by
  constructor <;> with_unfolding_all decide

/-- C4 (amended): on a dataset missing all of an index's regions, every
calculator returns percentile 50 and an empty detail list without raising
and without a division by zero; the value is 0 for every index except
Parietal IQ, whose value is the neutral IQ-scaled 100 with raw z-score 0.
The Handedness and Language Output calculators are also checked on the
present-but-empty BA datasets, which exercise the zero-total-weight path. -/
theorem claim_C4 :
    neutralAt (calculateOlfactoryIndex emptyData) 0 ∧
    neutralAt (calculateLanguageIndex emptyData) 0 ∧
    neutralAt (calculateReadingIndex emptyData) 0 ∧
    neutralAt (calculateEmpathyIndex emptyData) 0 ∧
    neutralAt (calculateExecutiveIndex emptyData) 0 ∧
    neutralAt (calculateSpatialIndex emptyData) 0 ∧
    neutralAt (calculateFluidIntelligenceIndex emptyData) 0 ∧
    (neutralAt (calculateParietalIQIndex emptyData) 100 ∧
      (calculateParietalIQIndex emptyData).zScoreF = some (JSNum.fin 0)) ∧
    neutralAt (calculateHandednessIndex emptyData) 0 ∧
    neutralAt (calculateHandednessIndex emptyBAData) 0 ∧
    neutralAt (calculateDominantEyeIndex emptyData) 0 ∧
    neutralAt (calculatePreferredNostrilIndex emptyData) 0 ∧
    neutralAt (calculateLanguageOutputLateralization emptyData) 0 ∧
    neutralAt (calculateLanguageOutputLateralization emptyBAData) 0 ∧
    neutralAt (calculateLanguageInputLateralization emptyData) 0 ∧
    neutralAt (calculateLanguageLateralizationIndex emptyData) 0 :=
  ⟨neutralOlf, neutralLang, neutralReading, neutralEmpathy, neutralExecutive, neutralSpatial,
   neutralFluid, neutralParietal, neutralHand, neutralHandBA, neutralEye, neutralNostril,
   neutralLangOut, neutralLangOutBA, neutralLangIn, neutralCombined⟩

/-- C5: zToPercentile is monotone nondecreasing: for all real z1 < z2,
zToPercentile(z1) is at most zToPercentile(z2). The proof shows the
Abramowitz-Stegun CDF expression is monotone (its Horner polynomial has a
nonnegative derivative on [0, 1], the 1/(1+p|z|) substitution is antitone,
and the Gaussian factor is antitone on the nonnegative axis) and composes
with the monotone rounding. -/
theorem claim_C5 (z1 z2 : ℝ) (h : z1 < z2) : zToPercentileR z1 ≤ zToPercentileR z2 := by
  rw [zToPercentileR_eq, zToPercentileR_eq, round_eq, round_eq]
  exact Int.floor_le_floor (by linarith [cdfAux_mono (le_of_lt h)])

/-- C5 witness: monotonicity applied at the concrete pair 0 < 1. -/
theorem claim_C5_witness : (0 : ℝ) < 1 ∧ zToPercentileR 0 ≤ zToPercentileR 1 :=
  ⟨by norm_num, claim_C5 0 1 (by norm_num)⟩

/-- C6: with BA4a, BA4p and BA3b left thickness and surface area exactly one
reference SD above their means, the right hemisphere at the means, and
curvature data absent, the Handedness value is positive and equals 0.70,
which is each region's configured thickness+area metric-weight sum. -/
theorem claim_C6 :
    (calculateHandednessIndex handedData).value = JSNum.fin (7/10) ∧
    JSNum.blt 0 ((calculateHandednessIndex handedData).value) = true ∧
    (baRegionConfigs.all fun cfg => decide (cfg.wThick + cfg.wArea = 7/10)) = true := by
  refine ⟨?_, ?_, ?_⟩ <;> with_unfolding_all decide

/-- C7: parsing a report whose marker line contains ColHeaders and MeanCurv
followed by the data row entorhinal 120 480 1600 3.20 0.30 0.05 0.02 5 1
produces an entorhinal measurement with thickness 3.20 (token 4), surfArea
480 (token 2), volume 1600 (token 3), meanCurv 0.05 (token 6) and foldInd 5
(token 8). -/
theorem claim_C7 :
    List.lookup "entorhinal" (parseDKTStats "# ColHeaders StructName NumVert SurfArea GrayVol ThickAvg ThickStd MeanCurv GausCurv FoldInd CurvInd\nentorhinal 120 480 1600 3.20 0.30 0.05 0.02 5 1") =
      some { thickness := JSNum.fin 3.20, surfArea := JSNum.fin 480, volume := JSNum.fin 1600,
             meanCurv := some (JSNum.fin 0.05), gausCurv := some (JSNum.fin 0.02),
             foldInd := some (JSNum.fin 5), curvInd := some (JSNum.fin 1) } := by
  with_unfolding_all decide

/-- C10: the Language Output percentile bands are not monotone in the
lateralization ratio: the ratio -0.26 receives percentile 4 while the larger
ratio -0.24 receives percentile 1, because the band below -0.25 starts at 5
while the (-0.25, -0.10] band is clamped up from negative values to 1. -/
theorem claim_C10 :
    ((-26 : ℚ) / 100 < (-24 : ℚ) / 100) ∧
    langOutputPercentile (JSNum.fin ((-26) / 100)) = JSNum.fin 4 ∧
    langOutputPercentile (JSNum.fin ((-24) / 100)) = JSNum.fin 1 := by
  refine ⟨by norm_num, ?_, ?_⟩ <;> with_unfolding_all decide

theorem parseLine_skip {line : List Char} (h : hasSub colHeadersTok line = false)
    (b : Bool) (dt : List (String × DKTRegionData)) :
    parseLine ⟨false, b, dt⟩ line = ⟨false, b, dt⟩ := by
  unfold parseLine
  rw [h]
  simp

theorem foldl_parseLine_skip (ls : List (List Char))
    (h : ∀ l ∈ ls, hasSub colHeadersTok l = false) (b : Bool)
    (dt : List (String × DKTRegionData)) :
    ls.foldl parseLine ⟨false, b, dt⟩ = ⟨false, b, dt⟩ := by
  induction ls with
  | nil => rfl
  | cons l rest ih =>
      simp only [List.foldl_cons]
      rw [parseLine_skip (h l (List.mem_cons_self _ _)) b dt]
      exact ih fun x hx => h x (List.mem_cons_of_mem _ hx)

/-- C9: parseDKTStats is total by construction and ignores everything before
the first line containing ColHeaders: for every input string, the parse
result equals the parse of the suffix of lines starting at the first marker
line, so no earlier line contributes an entry (and a report with no marker
line parses to the empty mapping). -/
theorem claim_C9 (content : String) :
    parseDKTStats content =
      (((splitOnNl content.toList).dropWhile
          (fun l => !(hasSub colHeadersTok l))).foldl parseLine initSt).data := by
  unfold parseDKTStats
  conv_lhs =>
    rw [← List.takeWhile_append_dropWhile (fun l => !(hasSub colHeadersTok l))
      (splitOnNl content.toList)]
  rw [List.foldl_append]
  rw [show initSt = (⟨false, false, []⟩ : ParseSt) from rfl]
  rw [foldl_parseLine_skip ((splitOnNl content.toList).takeWhile fun l => !(hasSub colHeadersTok l))
    (fun l hl => by simpa using List.mem_takeWhile_imp hl) false []]

theorem isFin_iff (a : JSNum) : a.isFin = true ↔ ∃ q : ℚ, a = JSNum.fin q := by
  cases a <;> simp [JSNum.isFin]

theorem isFin_add : ∀ {a b : JSNum}, a.isFin = true → b.isFin = true → (a + b).isFin = true
  | JSNum.fin _, JSNum.fin _, _, _ => rfl
  | JSNum.nan, _, h, _ => Bool.noConfusion h
  | JSNum.inf _, _, h, _ => Bool.noConfusion h
  | JSNum.fin _, JSNum.nan, _, h => Bool.noConfusion h
  | JSNum.fin _, JSNum.inf _, _, h => Bool.noConfusion h

theorem isFin_sub : ∀ {a b : JSNum}, a.isFin = true → b.isFin = true → (a - b).isFin = true
  | JSNum.fin _, JSNum.fin _, _, _ => rfl
  | JSNum.nan, _, h, _ => Bool.noConfusion h
  | JSNum.inf _, _, h, _ => Bool.noConfusion h
  | JSNum.fin _, JSNum.nan, _, h => Bool.noConfusion h
  | JSNum.fin _, JSNum.inf _, _, h => Bool.noConfusion h

theorem isFin_mul : ∀ {a b : JSNum}, a.isFin = true → b.isFin = true → (a * b).isFin = true
  | JSNum.fin _, JSNum.fin _, _, _ => rfl
  | JSNum.nan, _, h, _ => Bool.noConfusion h
  | JSNum.inf _, _, h, _ => Bool.noConfusion h
  | JSNum.fin _, JSNum.nan, _, h => Bool.noConfusion h
  | JSNum.fin _, JSNum.inf _, _, h => Bool.noConfusion h

theorem isFin_div_fin : ∀ {a : JSNum} {q : ℚ}, a.isFin = true → q ≠ 0 → (a / JSNum.fin q).isFin = true
  | JSNum.fin _, q, _, hq => by
      show (JSNum.div (JSNum.fin _) (JSNum.fin q)).isFin = true
      simp [JSNum.div, hq, JSNum.isFin]
  | JSNum.nan, _, h, _ => Bool.noConfusion h
  | JSNum.inf _, _, h, _ => Bool.noConfusion h

theorem lookup_all {β : Type} (p : β → Bool) :
    ∀ (l : List (String × β)) (k : String) (v : β),
      (l.all fun e => p e.2) = true → List.lookup k l = some v → p v = true := by
  intro l
  induction l with
  | nil => intro k v _ h; simp [List.lookup] at h
  | cons e rest ih =>
      intro k v hall h
      rw [List.all_cons, Bool.and_eq_true] at hall
      rw [List.lookup] at h
      cases hk : k == e.1 with
      | true =>
          rw [hk] at h
          cases h
          exact hall.1
      | false =>
          rw [hk] at h
          exact ih k v hall.2 h

theorem ref_stds {k : String} {ref : RefEntry}
    (h : List.lookup k REFERENCE_DATA_MALE = some ref) :
    ref.thickness.std ≠ 0 ∧ ref.surfArea.std ≠ 0 ∧ ref.volume.std ≠ 0 := by
  have hall : (REFERENCE_DATA_MALE.all fun e =>
      decide (e.2.thickness.std ≠ 0) && decide (e.2.surfArea.std ≠ 0) &&
        decide (e.2.volume.std ≠ 0)) = true := by
    with_unfolding_all decide
  have hv := lookup_all (fun r : RefEntry =>
    decide (r.thickness.std ≠ 0) && decide (r.surfArea.std ≠ 0) && decide (r.volume.std ≠ 0))
    REFERENCE_DATA_MALE k ref hall h
  simp only [Bool.and_eq_true, decide_eq_true_eq] at hv
  exact ⟨hv.1.1, hv.1.2, hv.2⟩

theorem curv_stds {k : String} {ref : CurvRefEntry}
    (h : List.lookup k BA_CURVATURE_REFERENCE = some ref) : ref.foldInd.std ≠ 0 := by
  have hall : (BA_CURVATURE_REFERENCE.all fun e =>
      decide (e.2.foldInd.std ≠ 0)) = true := by
    with_unfolding_all decide
  have hv := lookup_all (fun r : CurvRefEntry => decide (r.foldInd.std ≠ 0))
    BA_CURVATURE_REFERENCE k ref hall h
  simpa using hv

theorem finMeasB_parts {r : DKTRegionData} (h : finMeasB r = true) :
    r.thickness.isFin = true ∧ r.surfArea.isFin = true ∧ r.volume.isFin = true ∧
    (∀ f, r.foldInd = some f → f.isFin = true) := by
  unfold finMeasB at h
  simp only [Bool.and_eq_true] at h
  refine ⟨h.1.1.1, h.1.1.2, h.1.2, ?_⟩
  intro f hf
  rw [hf] at h
  exact h.2

theorem isFin_fin (q : ℚ) : (JSNum.fin q).isFin = true := rfl

theorem langOutStep_fin {lb rb : List (String × DKTRegionData)}
    (hlb : allFinB lb = true) (hrb : allFinB rb = true) (acc : LatAcc) (cfg : HandCfg)
    (hL : acc.sumContribL.isFin = true) (hR : acc.sumContribR.isFin = true) :
    (langOutStep lb rb acc cfg).sumContribL.isFin = true ∧
    (langOutStep lb rb acc cfg).sumContribR.isFin = true := by
  unfold langOutStep
  cases href : List.lookup cfg.name REFERENCE_DATA_MALE with
  | none => exact ⟨hL, hR⟩
  | some ref =>
  cases hlh : List.lookup cfg.name lb with
  | none => exact ⟨hL, hR⟩
  | some lh =>
  cases hrh : List.lookup cfg.name rb with
  | none => exact ⟨hL, hR⟩
  | some rh =>
  obtain ⟨hs1, hs2, _⟩ := ref_stds href
  obtain ⟨hlt, hla, _, hlf⟩ := finMeasB_parts (lookup_all finMeasB lb _ _ hlb hlh)
  obtain ⟨hrt, hra, _, hrf⟩ := finMeasB_parts (lookup_all finMeasB rb _ _ hrb hrh)
  have hThickL := isFin_div_fin (isFin_sub hlt (isFin_fin ref.thickness.mean)) hs1
  have hThickR := isFin_div_fin (isFin_sub hrt (isFin_fin ref.thickness.mean)) hs1
  have hAreaL := isFin_div_fin (isFin_sub hla (isFin_fin ref.surfArea.mean)) hs2
  have hAreaR := isFin_div_fin (isFin_sub hra (isFin_fin ref.surfArea.mean)) hs2
  have hFold : ∀ z : JSNum × JSNum, z = (match List.lookup cfg.name BA_CURVATURE_REFERENCE, lh.foldInd, rh.foldInd with
      | some curvRef, some lf, some rf =>
          ((lf - JSNum.fin curvRef.foldInd.mean) / JSNum.fin curvRef.foldInd.std,
           (rf - JSNum.fin curvRef.foldInd.mean) / JSNum.fin curvRef.foldInd.std)
      | _, _, _ => ((0 : JSNum), (0 : JSNum))) → z.1.isFin = true ∧ z.2.isFin = true := by
    intro z hz
    cases hcurv : List.lookup cfg.name BA_CURVATURE_REFERENCE with
    | none => rw [hcurv] at hz; exact hz ▸ ⟨rfl, rfl⟩
    | some curvRef =>
    cases hlfi : lh.foldInd with
    | none => rw [hcurv, hlfi] at hz; exact hz ▸ ⟨rfl, rfl⟩
    | some lf =>
    cases hrfi : rh.foldInd with
    | none => rw [hcurv, hlfi, hrfi] at hz; exact hz ▸ ⟨rfl, rfl⟩
    | some rf =>
    rw [hcurv, hlfi, hrfi] at hz
    have hcs := curv_stds hcurv
    subst hz
    exact ⟨isFin_div_fin (isFin_sub (hlf lf hlfi) (isFin_fin curvRef.foldInd.mean)) hcs,
           isFin_div_fin (isFin_sub (hrf rf hrfi) (isFin_fin curvRef.foldInd.mean)) hcs⟩
  obtain ⟨hzf1, hzf2⟩ := hFold _ rfl
  constructor
  · dsimp only
    exact isFin_add hL (isFin_mul (isFin_fin cfg.weight)
      (isFin_add (isFin_add (isFin_mul (isFin_fin cfg.wThick) hThickL)
        (isFin_mul (isFin_fin cfg.wArea) hAreaL)) (isFin_mul (isFin_fin cfg.wFold) hzf1)))
  · dsimp only
    exact isFin_add hR (isFin_mul (isFin_fin cfg.weight)
      (isFin_add (isFin_add (isFin_mul (isFin_fin cfg.wThick) hThickR)
        (isFin_mul (isFin_fin cfg.wArea) hAreaR)) (isFin_mul (isFin_fin cfg.wFold) hzf2)))

theorem langInStep_fin {d : DKTData}
    (hlh : allFinB d.lh = true) (hrh : allFinB d.rh = true) (acc : InAcc) (cfg : LangInCfg)
    (hL : acc.sumContribL.isFin = true) (hR : acc.sumContribR.isFin = true) :
    (langInStep d acc cfg).sumContribL.isFin = true ∧
    (langInStep d acc cfg).sumContribR.isFin = true := by
  unfold langInStep
  cases href : List.lookup cfg.name REFERENCE_DATA_MALE with
  | none => exact ⟨hL, hR⟩
  | some norm =>
  cases hll : List.lookup cfg.name d.lh with
  | none => exact ⟨hL, hR⟩
  | some lh =>
  cases hrr : List.lookup cfg.name d.rh with
  | none => exact ⟨hL, hR⟩
  | some rh =>
  obtain ⟨hs1, hs2, hs3⟩ := ref_stds href
  obtain ⟨hlt, hla, hlv, _⟩ := finMeasB_parts (lookup_all finMeasB d.lh _ _ hlh hll)
  obtain ⟨hrt, hra, hrv, _⟩ := finMeasB_parts (lookup_all finMeasB d.rh _ _ hrh hrr)
  constructor
  · dsimp only
    exact isFin_add hL (isFin_mul (isFin_fin cfg.weight)
      (isFin_add (isFin_add
        (isFin_mul (isFin_fin cfg.wThick) (isFin_div_fin (isFin_sub hlt (isFin_fin norm.thickness.mean)) hs1))
        (isFin_mul (isFin_fin cfg.wArea) (isFin_div_fin (isFin_sub hla (isFin_fin norm.surfArea.mean)) hs2)))
        (isFin_mul (isFin_fin cfg.wVol) (isFin_div_fin (isFin_sub hlv (isFin_fin norm.volume.mean)) hs3))))
  · dsimp only
    exact isFin_add hR (isFin_mul (isFin_fin cfg.weight)
      (isFin_add (isFin_add
        (isFin_mul (isFin_fin cfg.wThick) (isFin_div_fin (isFin_sub hrt (isFin_fin norm.thickness.mean)) hs1))
        (isFin_mul (isFin_fin cfg.wArea) (isFin_div_fin (isFin_sub hra (isFin_fin norm.surfArea.mean)) hs2)))
        (isFin_mul (isFin_fin cfg.wVol) (isFin_div_fin (isFin_sub hrv (isFin_fin norm.volume.mean)) hs3))))

theorem langOutFold_fin {lb rb : List (String × DKTRegionData)}
    (hlb : allFinB lb = true) (hrb : allFinB rb = true) (cfgs : List HandCfg) (acc : LatAcc)
    (hL : acc.sumContribL.isFin = true) (hR : acc.sumContribR.isFin = true) :
    (cfgs.foldl (langOutStep lb rb) acc).sumContribL.isFin = true ∧
    (cfgs.foldl (langOutStep lb rb) acc).sumContribR.isFin = true := by
  induction cfgs generalizing acc with
  | nil => exact ⟨hL, hR⟩
  | cons c cs ih =>
      simp only [List.foldl_cons]
      obtain ⟨h1, h2⟩ := langOutStep_fin hlb hrb acc c hL hR
      exact ih _ h1 h2

theorem langInFold_fin {d : DKTData}
    (hlh : allFinB d.lh = true) (hrh : allFinB d.rh = true) (cfgs : List LangInCfg) (acc : InAcc)
    (hL : acc.sumContribL.isFin = true) (hR : acc.sumContribR.isFin = true) :
    (cfgs.foldl (langInStep d) acc).sumContribL.isFin = true ∧
    (cfgs.foldl (langInStep d) acc).sumContribR.isFin = true := by
  induction cfgs generalizing acc with
  | nil => exact ⟨hL, hR⟩
  | cons c cs ih =>
      simp only [List.foldl_cons]
      obtain ⟨h1, h2⟩ := langInStep_fin hlh hrh acc c hL hR
      exact ih _ h1 h2

theorem li_ratio_bound (qL qR : ℚ) :
    ∃ q : ℚ, (JSNum.fin qL - JSNum.fin qR) /
        (JSNum.jabs (JSNum.fin qL) + JSNum.jabs (JSNum.fin qR) + (0.001 : JSNum)) = JSNum.fin q ∧
      -1 < q ∧ q < 1 := by
  have hD : (0 : ℚ) < |qL| + |qR| + 0.001 := by positivity
  refine ⟨(qL - qR) / (|qL| + |qR| + 0.001), ?_, ?_, ?_⟩
  · show JSNum.div (JSNum.add (JSNum.fin qL) (JSNum.neg (JSNum.fin qR)))
      (JSNum.add (JSNum.add (JSNum.jabs (JSNum.fin qL)) (JSNum.jabs (JSNum.fin qR))) (JSNum.fin 0.001)) = _
    simp only [JSNum.jabs, JSNum.add, JSNum.neg, JSNum.div]
    rw [if_neg (ne_of_gt hD)]
    norm_num [sub_eq_add_neg]
  · rw [lt_div_iff₀ hD]
    have h1 := neg_abs_le qL
    have h2 := le_abs_self qR
    linarith
  · rw [div_lt_one hD]
    have h1 := le_abs_self qL
    have h2 := neg_abs_le qR
    linarith

/-- C9 witness: the prefix-dropping equation instantiated at a concrete
report with one garbage line before the marker. -/
theorem claim_C9_witness :
    parseDKTStats "garbage before the table\n# ColHeaders StructName NumVert SurfArea GrayVol ThickAvg ThickStd\nentorhinal 120 480 1600 3.20 0.30" =
      (((splitOnNl ("garbage before the table\n# ColHeaders StructName NumVert SurfArea GrayVol ThickAvg ThickStd\nentorhinal 120 480 1600 3.20 0.30" : String).toList).dropWhile
          (fun l => !(hasSub colHeadersTok l))).foldl parseLine initSt).data :=
  claim_C9 "garbage before the table\n# ColHeaders StructName NumVert SurfArea GrayVol ThickAvg ThickStd\nentorhinal 120 480 1600 3.20 0.30"

/-- C8: for every dataset whose stored measurements are all finite, the
Language Output and Language Input lateralization ratios
(sumL - sumR) / (|sumL| + |sumR| + 0.001) are finite and lie strictly
between -1 and 1 (the ratio is 0 when the BA datasets are absent). -/
theorem claim_C8 (d : DKTData) (hfin : dataFinB d = true) :
    (∃ q : ℚ, langOutLI d = JSNum.fin q ∧ -1 < q ∧ q < 1) ∧
    (∃ q : ℚ, langInLI d = JSNum.fin q ∧ -1 < q ∧ q < 1) := by
  unfold dataFinB at hfin
  simp only [Bool.and_eq_true] at hfin
  obtain ⟨⟨⟨hlh, hrh⟩, hlba⟩, hrba⟩ := hfin
  constructor
  · unfold langOutLI
    cases hl : d.lhBA with
    | none => exact ⟨0, rfl, by norm_num, by norm_num⟩
    | some lb =>
      cases hr : d.rhBA with
      | none => exact ⟨0, rfl, by norm_num, by norm_num⟩
      | some rb =>
        rw [hl] at hlba
        rw [hr] at hrba
        have hlba2 : allFinB lb = true := hlba
        have hrba2 : allFinB rb = true := hrba
        have hfold := langOutFold_fin hlba2 hrba2 baBrocaRegions ⟨0, 0, 0, []⟩ rfl rfl
        obtain ⟨qL, hqL⟩ := (isFin_iff _).mp hfold.1
        obtain ⟨qR, hqR⟩ := (isFin_iff _).mp hfold.2
        dsimp only
        unfold langOutAcc
        rw [hqL, hqR]
        exact li_ratio_bound qL qR
  · unfold langInLI
    have hfold := langInFold_fin hlh hrh DKT_LANGUAGE_INPUT_REGIONS ⟨0, 0, 0, [], []⟩ rfl rfl
    obtain ⟨qL, hqL⟩ := (isFin_iff _).mp hfold.1
    obtain ⟨qR, hqR⟩ := (isFin_iff _).mp hfold.2
    dsimp only
    unfold langInAcc
    rw [hqL, hqR]
    exact li_ratio_bound qL qR

/-- C8 witness: the bound applied at a concrete all-finite dataset. -/
theorem claim_C8_witness :
    dataFinB handedData = true ∧
    ((∃ q : ℚ, langOutLI handedData = JSNum.fin q ∧ -1 < q ∧ q < 1) ∧
     (∃ q : ℚ, langInLI handedData = JSNum.fin q ∧ -1 < q ∧ q < 1)) :=
  ⟨by with_unfolding_all decide, claim_C8 handedData (by with_unfolding_all decide)⟩

/-- The displayed value field, unlike the raw ratio, is rounded to three
decimals and can reach exactly 1 on a strongly asymmetric dataset. -/
theorem langOutputValue_saturation :
    (calculateLanguageOutputLateralization skewedBrocaData).value = JSNum.fin 1 := by
  with_unfolding_all decide

end Lifeline
